import Mathlib

/-!
Actor pool subsystem.

A shallow embedding of `UActorPoolSubsystem` (Source/ActorPool/ActorPoolSubsystem.cpp and
ActorPoolSubsystem.h) and proofs about its pooling policy.

Modelling conventions.

* The object is a record with one field per data member of the class, configuration members
  included, under the member's own name.
* `int32` members are mathematical integers. Signed overflow is undefined behaviour in C++,
  so every statement below is about executions in which no counter leaves the `int32` range.
* `TArray<AActor*> PooledObjects` is a list whose last element is the top of the stack:
  `Add` and `Push` append at the end, `Pop` removes the last element.
* An `AActor*` is `Option Actor`, with `none` for `nullptr`; `Actor` is the identity of the
  object pointed at. Whether an actor is pending kill is a fact about the world at the time
  of the call, supplied as `IsPendingKill`.
* `SpawnActor()` is an external primitive. One step receives a `SpawnOracle`, giving for the
  class spawned and the index of the call inside the step what that call returns.
* `SetTimerForNextTick` is recorded as a Boolean result: the step asked for another tick.
-/

/-- Identity of an actor object, the thing an `AActor*` points at. -/
abbrev Actor := Nat

/-- Identity of an actor class (`TSubclassOf<AActor>`). -/
abbrev UClass := Nat

/-- What the spawn primitive returns during one step: for the class to spawn and the number
of the `SpawnActor()` call within the step, the new actor or `none` (`nullptr`). -/
abbrev SpawnOracle := Option UClass → Nat → Option Actor

/-- Data members of `UActorPoolSubsystem`. -/
structure UActorPoolSubsystem where
  ClassToSpawn : Option UClass
  PooledObjects : List Actor
  NumActorsToPool : Int
  SpawnPerFrame : Int
  MinActorsInPool : Int
  SpawnAdditionalPerFrame : Int
  ActorsInPool : Int
  CurrentActorsSpawned : Int
  MaxActorsSpawned : Int
  TotalActorsSpawned : Int
  TotalActorsDespawned : Int
  TotalActorsSpawnedBySystem : Int
deriving DecidableEq, Repr

namespace UActorPoolSubsystem

/-- A freshly constructed subsystem: the statistics are 0, the pool is empty and no class is
set; the four configuration members are whatever the defaults were edited to. -/
def initial (NumActorsToPool SpawnPerFrame MinActorsInPool SpawnAdditionalPerFrame : Int) :
    UActorPoolSubsystem :=
  { ClassToSpawn := none
    PooledObjects := []
    NumActorsToPool := NumActorsToPool
    SpawnPerFrame := SpawnPerFrame
    MinActorsInPool := MinActorsInPool
    SpawnAdditionalPerFrame := SpawnAdditionalPerFrame
    ActorsInPool := 0
    CurrentActorsSpawned := 0
    MaxActorsSpawned := 0
    TotalActorsSpawned := 0
    TotalActorsDespawned := 0
    TotalActorsSpawnedBySystem := 0 }

/-- The loop `for (int i = 0; i < SpawnThisFrame; i++)` of `PopulatePool` and of
`ReplenishPool` (the two bodies are the same text): first argument the iterations left,
second the loop variable `i`. -/
def spawnLoop (World : SpawnOracle) : Nat → Nat → UActorPoolSubsystem → UActorPoolSubsystem
  | 0, _, s => s
  | n + 1, i, s =>
    match World s.ClassToSpawn i with
    | some Actor =>
      spawnLoop World n (i + 1)
        { s with
          ActorsInPool := s.ActorsInPool + 1
          TotalActorsSpawnedBySystem := s.TotalActorsSpawnedBySystem + 1
          PooledObjects := s.PooledObjects ++ [Actor] }
    | none => spawnLoop World n (i + 1) s

/-- `UActorPoolSubsystem::PopulatePool`. The Boolean is whether the step called
`SetTimerForNextTick` on itself. -/
def PopulatePool (World : SpawnOracle) (s : UActorPoolSubsystem) : UActorPoolSubsystem × Bool :=
  let LeftToSpawn := s.NumActorsToPool - s.TotalActorsSpawnedBySystem
  let SpawnThisFrame :=
    if s.SpawnPerFrame ≠ 0 then min s.SpawnPerFrame LeftToSpawn else s.NumActorsToPool
  let s1 := spawnLoop World SpawnThisFrame.toNat 0 s
  (s1, decide (s1.TotalActorsSpawnedBySystem < s1.NumActorsToPool))

/-- `UActorPoolSubsystem::InitializePoolInternal`. -/
def InitializePoolInternal (World : SpawnOracle) (InClassToSpawn : Option UClass)
    (s : UActorPoolSubsystem) : UActorPoolSubsystem × Bool :=
  PopulatePool World { s with ClassToSpawn := InClassToSpawn }

/-- `UActorPoolSubsystem::InitializePool`: passes the class along. -/
def InitializePool (World : SpawnOracle) (InClassToSpawn : Option UClass)
    (s : UActorPoolSubsystem) : UActorPoolSubsystem × Bool :=
  InitializePoolInternal World InClassToSpawn s

/-- `UActorPoolSubsystem::ReplenishPool`. The Boolean is whether the step called
`SetTimerForNextTick` on itself. -/
def ReplenishPool (World : SpawnOracle) (s : UActorPoolSubsystem) : UActorPoolSubsystem × Bool :=
  let LeftToSpawn := s.MinActorsInPool - (s.PooledObjects.length : Int)
  let SpawnThisFrame := min s.SpawnAdditionalPerFrame LeftToSpawn
  let s1 := spawnLoop World SpawnThisFrame.toNat 0 s
  (s1, decide (s1.TotalActorsSpawnedBySystem < s1.NumActorsToPool))

/-- The first `if` of `GetActorFromPool`: the local `Actor` and the object after it. -/
def popActor (s : UActorPoolSubsystem) : Option Actor × UActorPoolSubsystem :=
  if s.PooledObjects.length > 0 then
    let s1 : UActorPoolSubsystem :=
      { s with
        PooledObjects := s.PooledObjects.dropLast
        ActorsInPool := s.ActorsInPool - 1
        CurrentActorsSpawned := s.CurrentActorsSpawned + 1
        TotalActorsSpawned := s.TotalActorsSpawned + 1 }
    (s.PooledObjects.getLast?,
      if s1.CurrentActorsSpawned > s1.MaxActorsSpawned then
        { s1 with MaxActorsSpawned := s1.CurrentActorsSpawned }
      else s1)
  else (none, s)

/-- `UActorPoolSubsystem::GetActorFromPool`: the pointer returned, the object afterwards, and
whether the replenishment it ran (if any) asked for another tick. -/
def GetActorFromPool (World : SpawnOracle) (s : UActorPoolSubsystem) :
    Option Actor × UActorPoolSubsystem × Bool :=
  let r := popActor s
  if (r.2.PooledObjects.length : Int) < r.2.MinActorsInPool then
    let t := ReplenishPool World r.2
    (r.1, t.1, t.2)
  else (r.1, r.2, false)

/-- `UActorPoolSubsystem::ReturnActorToPool`. -/
def ReturnActorToPool (IsPendingKill : Actor → Bool) (Actor : Option Actor)
    (s : UActorPoolSubsystem) : UActorPoolSubsystem :=
  match Actor with
  | some a =>
    if !IsPendingKill a then
      { s with
        ActorsInPool := s.ActorsInPool + 1
        TotalActorsDespawned := s.TotalActorsDespawned + 1
        CurrentActorsSpawned := s.CurrentActorsSpawned - 1
        PooledObjects := s.PooledObjects ++ [a] }
    else s
  | none => s

end UActorPoolSubsystem

/-- One call made on the subsystem, by a client or by the timer manager, together with what
the world does during it. -/
inductive PoolCall where
  | InitializePool (World : SpawnOracle) (InClassToSpawn : Option UClass)
  | PopulatePool (World : SpawnOracle)
  | GetActorFromPool (World : SpawnOracle)
  | ReturnActorToPool (IsPendingKill : Actor → Bool) (Actor : Option Actor)
  | ReplenishPool (World : SpawnOracle)

namespace PoolCall

/-- The object after a call. -/
def apply (s : UActorPoolSubsystem) : PoolCall → UActorPoolSubsystem
  | InitializePool World InClassToSpawn => (s.InitializePool World InClassToSpawn).1
  | PopulatePool World => (s.PopulatePool World).1
  | GetActorFromPool World => (s.GetActorFromPool World).2.1
  | ReturnActorToPool IsPendingKill Actor => s.ReturnActorToPool IsPendingKill Actor
  | ReplenishPool World => (s.ReplenishPool World).1

/-- The handles on loan after a call, given those on loan before it: a successful
`GetActorFromPool` lends the handle it returns, `ReturnActorToPool` of a valid handle takes
one occurrence of it back. -/
def onLoanAfter (s : UActorPoolSubsystem) (loan : List Actor) : PoolCall → List Actor
  | GetActorFromPool World =>
    match (s.GetActorFromPool World).1 with
    | some a => a :: loan
    | none => loan
  | ReturnActorToPool IsPendingKill (some a) => if IsPendingKill a then loan else loan.erase a
  | _ => loan

/-- The call hands back only what is on loan: if it is a `ReturnActorToPool` of a valid
handle, that handle is among `loan`. -/
def returnsLoaned (loan : List Actor) : PoolCall → Prop
  | ReturnActorToPool IsPendingKill (some a) => IsPendingKill a = true ∨ a ∈ loan
  | _ => True

/-- Every successful spawn of the call yields a handle that is not in `used` and that no
other spawn of the call yields. -/
def spawnsFresh (used : List Actor) : PoolCall → Prop
  | ReturnActorToPool _ _ => True
  | InitializePool World _ | PopulatePool World | GetActorFromPool World | ReplenishPool World =>
    (∀ c i a, World c i = some a → a ∉ used) ∧
    (∀ c i j a, World c i = some a → World c j = some a → i = j)

end PoolCall

/-- The object after a sequence of calls, first call first. -/
def runCalls (s : UActorPoolSubsystem) (calls : List PoolCall) : UActorPoolSubsystem :=
  calls.foldl PoolCall.apply s

/-- The handles on loan after a sequence of calls started with `loan` on loan. -/
def onLoanAfterCalls : UActorPoolSubsystem → List Actor → List PoolCall → List Actor
  | _, loan, [] => loan
  | s, loan, c :: cs => onLoanAfterCalls (c.apply s) (c.onLoanAfter s loan) cs

/-- Along the sequence of calls, started with `loan` on loan, every `ReturnActorToPool` of a
valid handle returns a handle that is on loan at that moment. -/
def ReturnsOnlyLoaned : UActorPoolSubsystem → List Actor → List PoolCall → Prop
  | _, _, [] => True
  | s, loan, c :: cs =>
    c.returnsLoaned loan ∧ ReturnsOnlyLoaned (c.apply s) (c.onLoanAfter s loan) cs

/-- Along the sequence of calls every spawn is fresh: distinct from the handles idle or on
loan at the time of the call, and from the other spawns of the call. -/
def SpawnsAlwaysFresh : UActorPoolSubsystem → List Actor → List PoolCall → Prop
  | _, _, [] => True
  | s, loan, c :: cs =>
    c.spawnsFresh (s.PooledObjects ++ loan) ∧
      SpawnsAlwaysFresh (c.apply s) (c.onLoanAfter s loan) cs

/-- The handles that `n` consecutive `SpawnActor()` calls numbered from `i` return, failed
calls left out, in call order. -/
def spawnedActors (World : SpawnOracle) (cls : Option UClass) (i n : Nat) : List Actor :=
  (List.range' i n).filterMap (World cls)

/-- With replenishment switched off and a non-zero `SpawnPerFrame`, the object is within its
spawn target `N`. -/
def WithinTarget (N : Int) (s : UActorPoolSubsystem) : Prop :=
  s.NumActorsToPool = N ∧ s.SpawnPerFrame ≠ 0 ∧ s.MinActorsInPool ≤ 0 ∧
    s.TotalActorsSpawnedBySystem ≤ N

/-- The statistics kept by `GetActorFromPool` and `ReturnActorToPool` agree with each other. -/
def StatsConsistent (s : UActorPoolSubsystem) : Prop :=
  s.TotalActorsSpawned - s.TotalActorsDespawned = s.CurrentActorsSpawned ∧
    s.CurrentActorsSpawned ≤ s.MaxActorsSpawned

/-- The handles a `ReplenishPool` step run on `s` appends to the pool: those of the
successful ones among its `min(SpawnAdditionalPerFrame, MinActorsInPool - Num())` spawn
calls (none when that number is not positive). -/
def replenishedActors (World : SpawnOracle) (s : UActorPoolSubsystem) : List Actor :=
  spawnedActors World s.ClassToSpawn 0
    (min s.SpawnAdditionalPerFrame (s.MinActorsInPool - (s.PooledObjects.length : Int))).toNat

/-- A spawn primitive that always succeeds, its `i`-th call in a step returning the handle
`base + i`. -/
def freshWorld (base : Nat) : SpawnOracle := fun _ i => some (base + i)

/-- A spawn primitive whose first call in a step fails and whose later calls succeed, the
`i`-th returning the handle `base + i`. -/
def firstFailsWorld (base : Nat) : SpawnOracle :=
  fun _ i => if i = 0 then none else some (base + i)

/-- No actor is pending kill. -/
def nonePendingKill : Actor → Bool := fun _ => false

/-- A short life of a pool: populate it in two ticks, take a handle (it is handle 20), give
that handle back. -/
def borrowAndReturn : List PoolCall :=
  [PoolCall.InitializePool (freshWorld 10) (some 0),
   PoolCall.PopulatePool (freshWorld 20),
   PoolCall.GetActorFromPool (freshWorld 30),
   PoolCall.ReturnActorToPool nonePendingKill (some 20)]

/-- Every actor is pending kill. -/
def allPendingKill : Actor → Bool := fun _ => true

/-- The default configuration scaled down (pool of 4, 2 per frame, low-water mark 3, 1
additional per frame), populated in two ticks (handles 10, 11, 20, 21) and with one handle,
21, taken: three handles idle, which is exactly the low-water mark. -/
def atLowWaterMark : UActorPoolSubsystem :=
  runCalls (UActorPoolSubsystem.initial 4 2 3 1)
    [PoolCall.InitializePool (freshWorld 10) (some 0),
     PoolCall.PopulatePool (freshWorld 20),
     PoolCall.GetActorFromPool (freshWorld 30)]

/-- The pool `atLowWaterMark` after one more `GetActorFromPool`, which hands out handle 20:
handles 20 and 21 are on loan. -/
def twoOnLoan : UActorPoolSubsystem :=
  (UActorPoolSubsystem.GetActorFromPool (freshWorld 40) atLowWaterMark).2.1

/-- A spawn primitive for which every call fails, as for an invalid class. -/
def failingWorld : SpawnOracle := fun _ _ => none

/-- The `k`-th step (counted from 0) of the initial population: the first is the
`PopulatePool` run by `InitializePool`, the later ones are the `PopulatePool` runs started by
the timer; `Worlds k` is what the spawn primitive does during step `k`. -/
def populationStep (Worlds : Nat → SpawnOracle) (InClassToSpawn : Option UClass) (k : Nat)
    (s : UActorPoolSubsystem) : UActorPoolSubsystem × Bool :=
  if k = 0 then UActorPoolSubsystem.InitializePool (Worlds 0) InClassToSpawn s
  else UActorPoolSubsystem.PopulatePool (Worlds k) s

/-- The initial population as the timer drives it: the object after `k` ticks, and whether a
further step is due. `InitializePool` makes the first step due; after that a step runs on the
next tick exactly when the step before it called `SetTimerForNextTick`, and once no step is
due nothing happens any more. -/
def populationChain (Worlds : Nat → SpawnOracle) (InClassToSpawn : Option UClass)
    (s : UActorPoolSubsystem) : Nat → UActorPoolSubsystem × Bool
  | 0 => (s, true)
  | k + 1 =>
    if (populationChain Worlds InClassToSpawn s k).2 then
      populationStep Worlds InClassToSpawn k (populationChain Worlds InClassToSpawn s k).1
    else populationChain Worlds InClassToSpawn s k

/-- The tick bound of the specification for the initial population:
`ceil(targetCapacity / spawnPerTick)` ticks, or 1 tick if `spawnPerTick == 0`; never less than
the one step that `InitializePool` always runs. -/
def populationTickBound (NumActorsToPool SpawnPerFrame : Int) : Nat :=
  if SpawnPerFrame = 0 then 1
  else max 1 ((NumActorsToPool.toNat + SpawnPerFrame.toNat - 1) / SpawnPerFrame.toNat)

/-- `GetActorFromPool` followed by `ReturnActorToPool` of the pointer it returned. -/
def acquireThenRelease (World : SpawnOracle) (IsPendingKill : Actor → Bool)
    (s : UActorPoolSubsystem) : UActorPoolSubsystem :=
  UActorPoolSubsystem.ReturnActorToPool IsPendingKill
    (UActorPoolSubsystem.GetActorFromPool World s).1
    (UActorPoolSubsystem.GetActorFromPool World s).2.1

/-- The specification's batch of an Initial Population step:
`spawnPerTick == 0 ? targetCapacity : min(spawnPerTick, remaining)` with
`remaining = targetCapacity - totalSpawned`. -/
def populateBatch (s : UActorPoolSubsystem) : Int :=
  if s.SpawnPerFrame = 0 then s.NumActorsToPool
  else min s.SpawnPerFrame (s.NumActorsToPool - s.TotalActorsSpawnedBySystem)

/-- The specification's batch of a Replenishment step: `min(replenishPerTick, deficit)` with
`deficit = lowWaterMark - idleCount`, the idle count being `PooledObjects.Num()`. -/
def replenishBatch (s : UActorPoolSubsystem) : Int :=
  min s.SpawnAdditionalPerFrame (s.MinActorsInPool - (s.PooledObjects.length : Int))

/-- A step that takes `s` to `after` made `n` spawn attempts and absorbed the failed ones:
the handles of the successful attempts were appended to `PooledObjects` in spawn order,
`ActorsInPool` and `TotalActorsSpawnedBySystem` grew by their number, the hand-out statistics
did not move, and if all `n` attempts failed the object is unchanged. -/
def SpawnsAbsorbed (World : SpawnOracle) (n : Nat) (s after : UActorPoolSubsystem) : Prop :=
  after.PooledObjects = s.PooledObjects ++ spawnedActors World s.ClassToSpawn 0 n ∧
  after.PooledObjects.length =
    s.PooledObjects.length + (spawnedActors World s.ClassToSpawn 0 n).length ∧
  after.ActorsInPool = s.ActorsInPool + (spawnedActors World s.ClassToSpawn 0 n).length ∧
  after.TotalActorsSpawnedBySystem =
    s.TotalActorsSpawnedBySystem + (spawnedActors World s.ClassToSpawn 0 n).length ∧
  after.CurrentActorsSpawned = s.CurrentActorsSpawned ∧
  after.MaxActorsSpawned = s.MaxActorsSpawned ∧
  after.TotalActorsSpawned = s.TotalActorsSpawned ∧
  after.TotalActorsDespawned = s.TotalActorsDespawned ∧
  ((∀ i, i < n → World s.ClassToSpawn i = none) → after = s)

/-- The scaled-down default configuration after the first population tick: handles 10 and 11
idle, 2 of 4 spawned. -/
def halfPopulated : UActorPoolSubsystem :=
  (UActorPoolSubsystem.InitializePool (freshWorld 10) (some 0)
    (UActorPoolSubsystem.initial 4 2 3 1)).1

/-- The scenario of the specification for the replenishment trigger: the default
configuration (2000, 100, 1500, 1) with 1500 handles idle and 500 on loan. -/
def atDefaultMark : UActorPoolSubsystem :=
  { UActorPoolSubsystem.initial 2000 100 1500 1 with
    ClassToSpawn := some 0
    PooledObjects := List.range 1500
    ActorsInPool := 1500
    CurrentActorsSpawned := 500
    MaxActorsSpawned := 500
    TotalActorsSpawned := 500
    TotalActorsSpawnedBySystem := 2000 }

/-- A spawn primitive that always succeeds, with handles that differ from tick to tick:
tick `k` hands out `1000 * (k + 1)`, `1000 * (k + 1) + 1`, and so on. -/
def tickWorlds : Nat → SpawnOracle := fun k => freshWorld (1000 * (k + 1))

open UActorPoolSubsystem

/-! ## The spawn loop -/

theorem spawnedActors_zero (World : SpawnOracle) (cls : Option UClass) (i : Nat) :
    spawnedActors World cls i 0 = [] := rfl

theorem spawnedActors_succ_some (World : SpawnOracle) (cls : Option UClass) (i n : Nat)
    (a : Actor) (h : World cls i = some a) :
    spawnedActors World cls i (n + 1) = a :: spawnedActors World cls (i + 1) n := by
  simp [spawnedActors, List.range', List.filterMap_cons, h]

theorem spawnedActors_succ_none (World : SpawnOracle) (cls : Option UClass) (i n : Nat)
    (h : World cls i = none) :
    spawnedActors World cls i (n + 1) = spawnedActors World cls (i + 1) n := by
  simp [spawnedActors, List.range', List.filterMap_cons, h]

/-- The loop appends the handles of the successful spawns, in order, and adds their number to
`ActorsInPool` and to `TotalActorsSpawnedBySystem`; nothing else changes. -/
theorem spawnLoop_eq (World : SpawnOracle) (n : Nat) :
    ∀ (i : Nat) (s : UActorPoolSubsystem),
      spawnLoop World n i s =
        { s with
          PooledObjects := s.PooledObjects ++ spawnedActors World s.ClassToSpawn i n
          ActorsInPool := s.ActorsInPool + (spawnedActors World s.ClassToSpawn i n).length
          TotalActorsSpawnedBySystem :=
            s.TotalActorsSpawnedBySystem + (spawnedActors World s.ClassToSpawn i n).length } := by
  induction n with
  | zero => intro i s; simp [spawnLoop, spawnedActors_zero]
  | succ n ih =>
    intro i s
    cases h : World s.ClassToSpawn i with
    | none =>
      simp only [spawnLoop, h, ih, spawnedActors_succ_none World s.ClassToSpawn i n h]
    | some a =>
      simp only [spawnLoop, h, ih, spawnedActors_succ_some World s.ClassToSpawn i n a h]
      simp only [List.append_assoc, List.singleton_append, List.length_cons, Nat.cast_add,
        Nat.cast_one, mk.injEq, true_and, and_true]
      constructor <;> omega

theorem spawnedActors_length_le (World : SpawnOracle) (cls : Option UClass) (i n : Nat) :
    (spawnedActors World cls i n).length ≤ n := by
  have h := List.length_filterMap_le (World cls) (List.range' i n)
  simpa [spawnedActors] using h

/-! ## Sequences of calls -/

theorem runCalls_nil (s : UActorPoolSubsystem) : runCalls s [] = s := rfl

theorem runCalls_cons (s : UActorPoolSubsystem) (c : PoolCall) (cs : List PoolCall) :
    runCalls s (c :: cs) = runCalls (c.apply s) cs := rfl

/-- A property that holds at the start and that every call preserves holds after any sequence
of calls. -/
theorem runCalls_invariant (P : UActorPoolSubsystem → Prop)
    (step : ∀ (s : UActorPoolSubsystem) (c : PoolCall), P s → P (c.apply s)) :
    ∀ (cs : List PoolCall) (s : UActorPoolSubsystem), P s → P (runCalls s cs) := by
  intro cs
  induction cs with
  | nil => intro s h; exact h
  | cons c cs ih => intro s h; exact ih (c.apply s) (step s c h)

/-! ## `ActorsInPool` mirrors `PooledObjects.Num()` -/

theorem spawnLoop_mirror (World : SpawnOracle) (n i : Nat) (s : UActorPoolSubsystem)
    (h : s.ActorsInPool = s.PooledObjects.length) :
    (spawnLoop World n i s).ActorsInPool = (spawnLoop World n i s).PooledObjects.length := by
  rw [spawnLoop_eq]
  simp only [List.length_append, Nat.cast_add]
  omega

theorem popActor_mirror (s : UActorPoolSubsystem)
    (h : s.ActorsInPool = s.PooledObjects.length) :
    (popActor s).2.ActorsInPool = (popActor s).2.PooledObjects.length := by
  unfold popActor
  by_cases hl : s.PooledObjects.length > 0
  · simp only [hl, if_true]
    split <;> simp only [List.length_dropLast] <;> omega
  · simp only [hl, if_false]
    exact h

theorem apply_mirror (s : UActorPoolSubsystem) (c : PoolCall)
    (h : s.ActorsInPool = s.PooledObjects.length) :
    (c.apply s).ActorsInPool = (c.apply s).PooledObjects.length := by
  cases c with
  | InitializePool World cls =>
    exact spawnLoop_mirror World _ 0 _ h
  | PopulatePool World =>
    exact spawnLoop_mirror World _ 0 _ h
  | ReplenishPool World =>
    exact spawnLoop_mirror World _ 0 _ h
  | GetActorFromPool World =>
    have hp := popActor_mirror s h
    simp only [PoolCall.apply, GetActorFromPool]
    split
    · exact spawnLoop_mirror World _ 0 _ hp
    · exact hp
  | ReturnActorToPool IsPendingKill Actor =>
    simp only [PoolCall.apply, ReturnActorToPool]
    cases Actor with
    | none => exact h
    | some a =>
      by_cases hk : IsPendingKill a = true
      · simp only [hk, Bool.not_true, Bool.false_eq_true, if_false]
        exact h
      · simp only [hk, Bool.not_false, if_true, List.length_append, List.length_singleton,
          Nat.cast_add, Nat.cast_one, Bool.not_eq_true] at *
        omega

/-- C2. In every state reached from a freshly constructed subsystem by any sequence of
`InitializePool`, `PopulatePool`, `ReplenishPool`, `GetActorFromPool` and `ReturnActorToPool`
calls, under every configuration and every behaviour of the spawn primitive, `ActorsInPool`
equals `PooledObjects.Num()`, and so is never negative. -/
theorem actorsInPool_eq_num (NumActorsToPool SpawnPerFrame MinActorsInPool
    SpawnAdditionalPerFrame : Int) (calls : List PoolCall) :
    (runCalls (initial NumActorsToPool SpawnPerFrame MinActorsInPool SpawnAdditionalPerFrame)
        calls).ActorsInPool =
      ((runCalls (initial NumActorsToPool SpawnPerFrame MinActorsInPool SpawnAdditionalPerFrame)
        calls).PooledObjects.length : Int) ∧
    0 ≤ (runCalls (initial NumActorsToPool SpawnPerFrame MinActorsInPool SpawnAdditionalPerFrame)
        calls).ActorsInPool := by
  have h := runCalls_invariant (fun s => s.ActorsInPool = (s.PooledObjects.length : Int))
    apply_mirror calls
    (initial NumActorsToPool SpawnPerFrame MinActorsInPool SpawnAdditionalPerFrame) rfl
  exact ⟨h, by rw [h]; exact Int.natCast_nonneg _⟩

/-! ## The hand-out statistics -/

/-- The spawn loop leaves the hand-out statistics, the class and the configuration alone. -/
theorem spawnLoop_frame (World : SpawnOracle) (n i : Nat) (s : UActorPoolSubsystem) :
    (spawnLoop World n i s).CurrentActorsSpawned = s.CurrentActorsSpawned ∧
    (spawnLoop World n i s).MaxActorsSpawned = s.MaxActorsSpawned ∧
    (spawnLoop World n i s).TotalActorsSpawned = s.TotalActorsSpawned ∧
    (spawnLoop World n i s).TotalActorsDespawned = s.TotalActorsDespawned ∧
    (spawnLoop World n i s).ClassToSpawn = s.ClassToSpawn ∧
    (spawnLoop World n i s).NumActorsToPool = s.NumActorsToPool ∧
    (spawnLoop World n i s).SpawnPerFrame = s.SpawnPerFrame ∧
    (spawnLoop World n i s).MinActorsInPool = s.MinActorsInPool ∧
    (spawnLoop World n i s).SpawnAdditionalPerFrame = s.SpawnAdditionalPerFrame := by
  rw [spawnLoop_eq]
  exact ⟨rfl, rfl, rfl, rfl, rfl, rfl, rfl, rfl, rfl⟩

theorem spawnLoop_stats (World : SpawnOracle) (n i : Nat) (s : UActorPoolSubsystem)
    (h : StatsConsistent s) : StatsConsistent (spawnLoop World n i s) := by
  obtain ⟨h1, h2, h3, h4, -⟩ := spawnLoop_frame World n i s
  unfold StatsConsistent at *
  rw [h1, h2, h3, h4]
  exact h

theorem popActor_stats (s : UActorPoolSubsystem) (h : StatsConsistent s) :
    StatsConsistent (popActor s).2 := by
  unfold StatsConsistent at *
  unfold popActor
  by_cases hl : s.PooledObjects.length > 0
  · simp only [hl, if_true]
    split
    · constructor <;> simp only <;> omega
    · constructor <;> simp only at * <;> omega
  · simp only [hl, if_false]
    exact h

theorem apply_stats (s : UActorPoolSubsystem) (c : PoolCall) (h : StatsConsistent s) :
    StatsConsistent (c.apply s) := by
  cases c with
  | InitializePool World cls => exact spawnLoop_stats World _ 0 _ h
  | PopulatePool World => exact spawnLoop_stats World _ 0 _ h
  | ReplenishPool World => exact spawnLoop_stats World _ 0 _ h
  | GetActorFromPool World =>
    have hp := popActor_stats s h
    simp only [PoolCall.apply, GetActorFromPool]
    split
    · exact spawnLoop_stats World _ 0 _ hp
    · exact hp
  | ReturnActorToPool IsPendingKill Actor =>
    simp only [PoolCall.apply, ReturnActorToPool]
    cases Actor with
    | none => exact h
    | some a =>
      by_cases hk : IsPendingKill a = true
      · simp only [hk, Bool.not_true, Bool.false_eq_true, if_false]
        exact h
      · simp only [hk, Bool.not_false, if_true]
        unfold StatsConsistent at *
        constructor <;> simp only <;> omega

/-- C3. After any sequence of `GetActorFromPool` and `ReturnActorToPool` calls, interleaved
with any `InitializePool`, `PopulatePool` and `ReplenishPool` steps, on a freshly constructed
subsystem, `TotalActorsSpawned - TotalActorsDespawned == CurrentActorsSpawned` and
`CurrentActorsSpawned <= MaxActorsSpawned`. -/
theorem stats_consistent (NumActorsToPool SpawnPerFrame MinActorsInPool
    SpawnAdditionalPerFrame : Int) (calls : List PoolCall) :
    (runCalls (initial NumActorsToPool SpawnPerFrame MinActorsInPool SpawnAdditionalPerFrame)
        calls).TotalActorsSpawned -
      (runCalls (initial NumActorsToPool SpawnPerFrame MinActorsInPool SpawnAdditionalPerFrame)
        calls).TotalActorsDespawned =
      (runCalls (initial NumActorsToPool SpawnPerFrame MinActorsInPool SpawnAdditionalPerFrame)
        calls).CurrentActorsSpawned ∧
    (runCalls (initial NumActorsToPool SpawnPerFrame MinActorsInPool SpawnAdditionalPerFrame)
        calls).CurrentActorsSpawned ≤
      (runCalls (initial NumActorsToPool SpawnPerFrame MinActorsInPool SpawnAdditionalPerFrame)
        calls).MaxActorsSpawned :=
  runCalls_invariant StatsConsistent apply_stats calls
    (initial NumActorsToPool SpawnPerFrame MinActorsInPool SpawnAdditionalPerFrame)
    ⟨by simp [initial], by simp [initial]⟩

/-! ## `GetActorFromPool` and `ReturnActorToPool`, call by call -/

theorem replenishPool_eq (World : SpawnOracle) (s : UActorPoolSubsystem) :
    (ReplenishPool World s).1 =
      { s with
        PooledObjects := s.PooledObjects ++ replenishedActors World s
        ActorsInPool := s.ActorsInPool + (replenishedActors World s).length
        TotalActorsSpawnedBySystem :=
          s.TotalActorsSpawnedBySystem + (replenishedActors World s).length } := by
  simp only [ReplenishPool, spawnLoop_eq, replenishedActors]

/-- When the pool is not below `MinActorsInPool`, a replenishment step would spawn nothing. -/
theorem replenishedActors_of_le (World : SpawnOracle) (s : UActorPoolSubsystem)
    (h : s.MinActorsInPool ≤ (s.PooledObjects.length : Int)) :
    replenishedActors World s = [] := by
  have h0 : (min s.SpawnAdditionalPerFrame
      (s.MinActorsInPool - (s.PooledObjects.length : Int))).toNat = 0 := by
    apply Int.toNat_eq_zero.mpr
    exact le_trans (min_le_right _ _) (by omega)
  simp only [replenishedActors, h0, spawnedActors_zero]

/-- What `GetActorFromPool` returns is what its first `if` put in `Actor`. -/
theorem getActorFromPool_fst (World : SpawnOracle) (s : UActorPoolSubsystem) :
    (GetActorFromPool World s).1 = (popActor s).1 := by
  simp only [GetActorFromPool]
  split <;> rfl

/-- The object after `GetActorFromPool`: the object after the pop, plus whatever the
replenishment run in the same call spawned. -/
theorem getActorFromPool_snd (World : SpawnOracle) (s : UActorPoolSubsystem) :
    (GetActorFromPool World s).2.1 =
      { (popActor s).2 with
        PooledObjects := (popActor s).2.PooledObjects ++ replenishedActors World (popActor s).2
        ActorsInPool :=
          (popActor s).2.ActorsInPool + (replenishedActors World (popActor s).2).length
        TotalActorsSpawnedBySystem :=
          (popActor s).2.TotalActorsSpawnedBySystem +
            (replenishedActors World (popActor s).2).length } := by
  simp only [GetActorFromPool]
  split
  · exact replenishPool_eq World _
  · rename_i h
    rw [replenishedActors_of_le World _ (by omega)]
    simp

theorem popActor_nonempty (s : UActorPoolSubsystem) (h : s.PooledObjects ≠ []) :
    popActor s =
      (some (s.PooledObjects.getLast h),
        { s with
          PooledObjects := s.PooledObjects.dropLast
          ActorsInPool := s.ActorsInPool - 1
          CurrentActorsSpawned := s.CurrentActorsSpawned + 1
          TotalActorsSpawned := s.TotalActorsSpawned + 1
          MaxActorsSpawned := max s.MaxActorsSpawned (s.CurrentActorsSpawned + 1) }) := by
  have hl : s.PooledObjects.length > 0 := List.length_pos.mpr h
  unfold popActor
  simp only [hl, if_true, List.getLast?_eq_getLast _ h]
  split
  · rename_i hgt
    rw [max_eq_right (by omega)]
  · rename_i hgt
    rw [max_eq_left (by omega)]

theorem popActor_empty (s : UActorPoolSubsystem) (h : s.PooledObjects = []) :
    popActor s = (none, s) := by
  unfold popActor
  simp [h]

theorem returnActorToPool_valid (IsPendingKill : Actor → Bool) (a : Actor)
    (s : UActorPoolSubsystem) (hk : IsPendingKill a = false) :
    ReturnActorToPool IsPendingKill (some a) s =
      { s with
        ActorsInPool := s.ActorsInPool + 1
        TotalActorsDespawned := s.TotalActorsDespawned + 1
        CurrentActorsSpawned := s.CurrentActorsSpawned - 1
        PooledObjects := s.PooledObjects ++ [a] } := by
  simp [ReturnActorToPool, hk]

theorem returnActorToPool_pendingKill (IsPendingKill : Actor → Bool) (a : Actor)
    (s : UActorPoolSubsystem) (hk : IsPendingKill a = true) :
    ReturnActorToPool IsPendingKill (some a) s = s := by
  simp [ReturnActorToPool, hk]

/-- What `GetActorFromPool` does to `CurrentActorsSpawned`, by whether the pool was empty. -/
theorem getActorFromPool_current (World : SpawnOracle) (s : UActorPoolSubsystem) :
    ((GetActorFromPool World s).1 = none ∧ s.PooledObjects = [] ∧
      (GetActorFromPool World s).2.1.CurrentActorsSpawned = s.CurrentActorsSpawned) ∨
    (∃ h : s.PooledObjects ≠ [],
      (GetActorFromPool World s).1 = some (s.PooledObjects.getLast h) ∧
      (GetActorFromPool World s).2.1.CurrentActorsSpawned = s.CurrentActorsSpawned + 1) := by
  rw [getActorFromPool_fst, getActorFromPool_snd]
  by_cases h : s.PooledObjects = []
  · left
    rw [popActor_empty s h]
    exact ⟨rfl, h, rfl⟩
  · right
    rw [popActor_nonempty s h]
    exact ⟨h, rfl, rfl⟩

theorem popActor_after_return (IsPendingKill : Actor → Bool) (a : Actor)
    (s : UActorPoolSubsystem) (hk : IsPendingKill a = false) :
    (popActor (ReturnActorToPool IsPendingKill (some a) s)).1 = some a := by
  rw [returnActorToPool_valid IsPendingKill a s hk]
  simp [popActor]

/-- C6, as the code has it. On a non-empty pool `GetActorFromPool` returns the last handle
of `PooledObjects` as it was before the call, adds 1 to `CurrentActorsSpawned` and to
`TotalActorsSpawned` and sets `MaxActorsSpawned` to the larger of its old value and the new
`CurrentActorsSpawned`. Afterwards `PooledObjects` is the old array without its last element,
followed by the handles that the replenishment run inside the same call spawned, and
`ActorsInPool` is the old value minus 1 plus the number of those handles; when the pool
without its last element is not below `MinActorsInPool` there are none, so the array is the
old one without its last element and `ActorsInPool` is 1 less. -/
theorem getActorFromPool_nonempty (World : SpawnOracle) (s : UActorPoolSubsystem)
    (h : s.PooledObjects ≠ []) :
    (GetActorFromPool World s).1 = some (s.PooledObjects.getLast h) ∧
    (GetActorFromPool World s).2.1.PooledObjects =
      s.PooledObjects.dropLast ++
        replenishedActors World { s with PooledObjects := s.PooledObjects.dropLast } ∧
    (GetActorFromPool World s).2.1.ActorsInPool =
      s.ActorsInPool - 1 +
        (replenishedActors World { s with PooledObjects := s.PooledObjects.dropLast }).length ∧
    (GetActorFromPool World s).2.1.CurrentActorsSpawned = s.CurrentActorsSpawned + 1 ∧
    (GetActorFromPool World s).2.1.TotalActorsSpawned = s.TotalActorsSpawned + 1 ∧
    (GetActorFromPool World s).2.1.MaxActorsSpawned =
      max s.MaxActorsSpawned (s.CurrentActorsSpawned + 1) ∧
    (s.MinActorsInPool ≤ (s.PooledObjects.length : Int) - 1 →
      (GetActorFromPool World s).2.1.PooledObjects = s.PooledObjects.dropLast ∧
      (GetActorFromPool World s).2.1.ActorsInPool = s.ActorsInPool - 1) := by
  have hr : replenishedActors World (popActor s).2 =
      replenishedActors World { s with PooledObjects := s.PooledObjects.dropLast } := by
    rw [popActor_nonempty s h]
    rfl
  have hl : s.PooledObjects.length > 0 := List.length_pos.mpr h
  rw [getActorFromPool_fst, getActorFromPool_snd, hr]
  simp only [popActor_nonempty s h, true_and]
  intro hmin
  rw [replenishedActors_of_le World _ (by simp only [List.length_dropLast]; omega)]
  simp

/-- C7. On an empty pool, under every configuration and every behaviour of the spawn
primitive, `GetActorFromPool` returns `nullptr` and leaves `CurrentActorsSpawned`,
`MaxActorsSpawned`, `TotalActorsSpawned` and `TotalActorsDespawned` as they were. -/
theorem getActorFromPool_empty (World : SpawnOracle) (s : UActorPoolSubsystem)
    (h : s.PooledObjects = []) :
    (GetActorFromPool World s).1 = none ∧
    (GetActorFromPool World s).2.1.CurrentActorsSpawned = s.CurrentActorsSpawned ∧
    (GetActorFromPool World s).2.1.MaxActorsSpawned = s.MaxActorsSpawned ∧
    (GetActorFromPool World s).2.1.TotalActorsSpawned = s.TotalActorsSpawned ∧
    (GetActorFromPool World s).2.1.TotalActorsDespawned = s.TotalActorsDespawned := by
  rw [getActorFromPool_fst, getActorFromPool_snd, popActor_empty s h]
  exact ⟨rfl, rfl, rfl, rfl, rfl⟩

/-- C8. `ReturnActorToPool` called with `nullptr` or with an actor that is pending kill
changes nothing: the object, pool and every counter included, is as before the call. -/
theorem returnActorToPool_invalid (IsPendingKill : Actor → Bool) (Actor : Option Actor)
    (s : UActorPoolSubsystem)
    (h : Actor = none ∨ ∃ a, Actor = some a ∧ IsPendingKill a = true) :
    ReturnActorToPool IsPendingKill Actor s = s := by
  rcases h with h | ⟨a, ha, hk⟩
  · subst h; rfl
  · subst ha; exact returnActorToPool_pendingKill IsPendingKill a s hk

/-- C9. `ReturnActorToPool` called with a valid handle `a` (not `nullptr`, not pending kill)
appends `a` as the new last element of `PooledObjects`, the earlier elements staying in
place, adds 1 to `ActorsInPool` and to `TotalActorsDespawned`, subtracts 1 from
`CurrentActorsSpawned`, and leaves `TotalActorsSpawned`, `MaxActorsSpawned`,
`TotalActorsSpawnedBySystem`, the class and the four configuration members unchanged; it
makes no spawn call. -/
theorem returnActorToPool_effect (IsPendingKill : Actor → Bool) (a : Actor)
    (s : UActorPoolSubsystem) (hk : IsPendingKill a = false) :
    (ReturnActorToPool IsPendingKill (some a) s).PooledObjects = s.PooledObjects ++ [a] ∧
    (ReturnActorToPool IsPendingKill (some a) s).ActorsInPool = s.ActorsInPool + 1 ∧
    (ReturnActorToPool IsPendingKill (some a) s).TotalActorsDespawned =
      s.TotalActorsDespawned + 1 ∧
    (ReturnActorToPool IsPendingKill (some a) s).CurrentActorsSpawned =
      s.CurrentActorsSpawned - 1 ∧
    (ReturnActorToPool IsPendingKill (some a) s).TotalActorsSpawned = s.TotalActorsSpawned ∧
    (ReturnActorToPool IsPendingKill (some a) s).MaxActorsSpawned = s.MaxActorsSpawned ∧
    (ReturnActorToPool IsPendingKill (some a) s).TotalActorsSpawnedBySystem =
      s.TotalActorsSpawnedBySystem ∧
    (ReturnActorToPool IsPendingKill (some a) s).ClassToSpawn = s.ClassToSpawn ∧
    (ReturnActorToPool IsPendingKill (some a) s).NumActorsToPool = s.NumActorsToPool ∧
    (ReturnActorToPool IsPendingKill (some a) s).SpawnPerFrame = s.SpawnPerFrame ∧
    (ReturnActorToPool IsPendingKill (some a) s).MinActorsInPool = s.MinActorsInPool ∧
    (ReturnActorToPool IsPendingKill (some a) s).SpawnAdditionalPerFrame =
      s.SpawnAdditionalPerFrame := by
  rw [returnActorToPool_valid IsPendingKill a s hk]
  exact ⟨rfl, rfl, rfl, rfl, rfl, rfl, rfl, rfl, rfl, rfl, rfl, rfl⟩

/-- C10. Stack discipline. For valid handles `A` and `B`, after `ReturnActorToPool(A)` and
then `ReturnActorToPool(B)` the next `GetActorFromPool` returns `B`; and a `GetActorFromPool`
right after `ReturnActorToPool(h)` of a valid handle `h` returns `h`. Both hold for every
state, configuration and spawn behaviour, whether or not the low-water-mark check of that
`GetActorFromPool` runs a replenishment. -/
theorem getActorFromPool_lifo (World : SpawnOracle) (s : UActorPoolSubsystem)
    (killA killB : Actor → Bool) (A B : Actor) (hA : killA A = false) (hB : killB B = false) :
    (GetActorFromPool World
      (ReturnActorToPool killB (some B) (ReturnActorToPool killA (some A) s))).1 = some B ∧
    (GetActorFromPool World (ReturnActorToPool killA (some A) s)).1 = some A := by
  rw [getActorFromPool_fst, getActorFromPool_fst]
  exact ⟨popActor_after_return killB B _ hB, popActor_after_return killA A s hA⟩

/-! ## Handles on loan -/

/-- One call keeps `CurrentActorsSpawned` equal to the number of handles on loan, as long as
it does not hand back a handle that is not on loan. -/
theorem apply_loan_count (s : UActorPoolSubsystem) (loan : List Actor) (c : PoolCall)
    (hs : s.CurrentActorsSpawned = (loan.length : Int)) (hc : c.returnsLoaned loan) :
    (c.apply s).CurrentActorsSpawned = ((c.onLoanAfter s loan).length : Int) := by
  cases c with
  | InitializePool World cls => exact (spawnLoop_frame World _ 0 _).1.trans hs
  | PopulatePool World => exact (spawnLoop_frame World _ 0 _).1.trans hs
  | ReplenishPool World => exact (spawnLoop_frame World _ 0 _).1.trans hs
  | GetActorFromPool World =>
    simp only [PoolCall.apply, PoolCall.onLoanAfter]
    rcases getActorFromPool_current World s with ⟨h1, -, h2⟩ | ⟨h, h1, h2⟩
    · rw [h1, h2]; exact hs
    · rw [h1, h2]
      simp only [List.length_cons, Nat.cast_add, Nat.cast_one]
      omega
  | ReturnActorToPool IsPendingKill Actor =>
    cases Actor with
    | none => exact hs
    | some a =>
      simp only [PoolCall.apply, PoolCall.onLoanAfter, PoolCall.returnsLoaned] at *
      cases hk : IsPendingKill a with
      | true =>
        rw [returnActorToPool_pendingKill IsPendingKill a s hk]
        simpa using hs
      | false =>
        have hmem : a ∈ loan := by
          rcases hc with hc | hc
          · rw [hk] at hc; exact absurd hc (by decide)
          · exact hc
        have hpos : 0 < loan.length := List.length_pos_of_mem hmem
        rw [returnActorToPool_valid IsPendingKill a s hk]
        simp only [Bool.false_eq_true, if_false, List.length_erase_of_mem hmem]
        omega

theorem runCalls_loan_count :
    ∀ (cs : List PoolCall) (s : UActorPoolSubsystem) (loan : List Actor),
      s.CurrentActorsSpawned = (loan.length : Int) → ReturnsOnlyLoaned s loan cs →
      (runCalls s cs).CurrentActorsSpawned = ((onLoanAfterCalls s loan cs).length : Int) := by
  intro cs
  induction cs with
  | nil => intro s loan hs _; exact hs
  | cons c cs ih =>
    intro s loan hs hc
    exact ih (c.apply s) (c.onLoanAfter s loan) (apply_loan_count s loan c hs hc.1) hc.2

/-! ## No handle twice -/

/-- Fresh spawns put in front of a duplicate-free list give a duplicate-free list. -/
theorem nodup_spawnedActors_append (World : SpawnOracle) (cls : Option UClass) (i n : Nat)
    (used : List Actor) (hu : used.Nodup)
    (hfresh : ∀ c i a, World c i = some a → a ∉ used)
    (hinj : ∀ c i j a, World c i = some a → World c j = some a → i = j) :
    (spawnedActors World cls i n ++ used).Nodup := by
  refine List.Nodup.append ?_ hu ?_
  · exact List.Nodup.filterMap (fun a b x ha hb => hinj cls a b x ha hb)
      (List.nodup_range' i n)
  · intro x hx hxu
    obtain ⟨k, -, hk⟩ := List.mem_filterMap.mp hx
    exact hfresh cls k x hk hxu

theorem perm_spawn_middle (P L loan : List Actor) : (P ++ L ++ loan).Perm (L ++ (P ++ loan)) := by
  rw [← List.append_assoc]
  exact List.Perm.append_right loan List.perm_append_comm

theorem nodup_after_spawn (World : SpawnOracle) (cls : Option UClass) (n : Nat)
    (P loan : List Actor) (hu : (P ++ loan).Nodup)
    (hfresh : ∀ c i a, World c i = some a → a ∉ P ++ loan)
    (hinj : ∀ c i j a, World c i = some a → World c j = some a → i = j) :
    (P ++ spawnedActors World cls 0 n ++ loan).Nodup :=
  (List.Perm.nodup_iff (perm_spawn_middle P _ loan)).mpr
    (nodup_spawnedActors_append World cls 0 n (P ++ loan) hu hfresh hinj)

/-- One call keeps the handles in the pool and on loan free of duplicates, as long as it
hands back only what is on loan and its spawns are fresh. -/
theorem apply_nodup (s : UActorPoolSubsystem) (loan : List Actor) (c : PoolCall)
    (hs : (s.PooledObjects ++ loan).Nodup) (hc : c.returnsLoaned loan)
    (hf : c.spawnsFresh (s.PooledObjects ++ loan)) :
    ((c.apply s).PooledObjects ++ c.onLoanAfter s loan).Nodup := by
  cases c with
  | InitializePool World cls =>
    simp only [PoolCall.apply, InitializePool, InitializePoolInternal, PopulatePool,
      spawnLoop_eq, PoolCall.onLoanAfter]
    exact nodup_after_spawn World _ _ _ _ hs hf.1 hf.2
  | PopulatePool World =>
    simp only [PoolCall.apply, PopulatePool, spawnLoop_eq, PoolCall.onLoanAfter]
    exact nodup_after_spawn World _ _ _ _ hs hf.1 hf.2
  | ReplenishPool World =>
    simp only [PoolCall.apply, ReplenishPool, spawnLoop_eq, PoolCall.onLoanAfter]
    exact nodup_after_spawn World _ _ _ _ hs hf.1 hf.2
  | GetActorFromPool World =>
    simp only [PoolCall.apply, PoolCall.onLoanAfter, getActorFromPool_fst,
      getActorFromPool_snd]
    by_cases h : s.PooledObjects = []
    · simp only [popActor_empty s h]
      exact nodup_after_spawn World _ _ _ _ hs hf.1 hf.2
    · simp only [popActor_nonempty s h]
      have hsplit : s.PooledObjects.dropLast ++ (s.PooledObjects.getLast h :: loan) =
          s.PooledObjects ++ loan := by
        conv_rhs => rw [← List.dropLast_append_getLast h]
        simp
      have hs2 : (s.PooledObjects.dropLast ++ (s.PooledObjects.getLast h :: loan)).Nodup := by
        rw [hsplit]; exact hs
      exact nodup_after_spawn World _ _ _ _ hs2 (by rw [hsplit]; exact hf.1) hf.2
  | ReturnActorToPool IsPendingKill Actor =>
    cases Actor with
    | none => exact hs
    | some a =>
      simp only [PoolCall.apply, PoolCall.onLoanAfter, PoolCall.returnsLoaned] at *
      cases hk : IsPendingKill a with
      | true =>
        rw [returnActorToPool_pendingKill IsPendingKill a s hk]
        simpa using hs
      | false =>
        have hmem : a ∈ loan := by
          rcases hc with hc | hc
          · rw [hk] at hc; exact absurd hc (by decide)
          · exact hc
        rw [returnActorToPool_valid IsPendingKill a s hk]
        simp only [Bool.false_eq_true, if_false, List.append_assoc, List.singleton_append]
        exact (List.Perm.nodup_iff
          (List.Perm.append_left s.PooledObjects (List.perm_cons_erase hmem))).mp hs

theorem runCalls_nodup :
    ∀ (cs : List PoolCall) (s : UActorPoolSubsystem) (loan : List Actor),
      (s.PooledObjects ++ loan).Nodup → ReturnsOnlyLoaned s loan cs →
      SpawnsAlwaysFresh s loan cs →
      ((runCalls s cs).PooledObjects ++ onLoanAfterCalls s loan cs).Nodup := by
  intro cs
  induction cs with
  | nil => intro s loan hs _ _; exact hs
  | cons c cs ih =>
    intro s loan hs hc hf
    exact ih (c.apply s) (c.onLoanAfter s loan) (apply_nodup s loan c hs hc.1 hf.1) hc.2 hf.2

/-! ## The spawn ceiling -/

theorem popActor_frame (s : UActorPoolSubsystem) :
    (popActor s).2.TotalActorsSpawnedBySystem = s.TotalActorsSpawnedBySystem ∧
    (popActor s).2.TotalActorsDespawned = s.TotalActorsDespawned ∧
    (popActor s).2.ClassToSpawn = s.ClassToSpawn ∧
    (popActor s).2.NumActorsToPool = s.NumActorsToPool ∧
    (popActor s).2.SpawnPerFrame = s.SpawnPerFrame ∧
    (popActor s).2.MinActorsInPool = s.MinActorsInPool ∧
    (popActor s).2.SpawnAdditionalPerFrame = s.SpawnAdditionalPerFrame := by
  by_cases h : s.PooledObjects = []
  · rw [popActor_empty s h]
    exact ⟨rfl, rfl, rfl, rfl, rfl, rfl, rfl⟩
  · rw [popActor_nonempty s h]
    exact ⟨rfl, rfl, rfl, rfl, rfl, rfl, rfl⟩

theorem populatePool_withinTarget (N : Int) (World : SpawnOracle) (s : UActorPoolSubsystem)
    (h : WithinTarget N s) : WithinTarget N (PopulatePool World s).1 := by
  obtain ⟨hN, hS, hM, hT⟩ := h
  have hlen := spawnedActors_length_le World s.ClassToSpawn 0
    (min s.SpawnPerFrame (s.NumActorsToPool - s.TotalActorsSpawnedBySystem)).toNat
  have hmin : min s.SpawnPerFrame (s.NumActorsToPool - s.TotalActorsSpawnedBySystem) ≤
      s.NumActorsToPool - s.TotalActorsSpawnedBySystem := min_le_right _ _
  simp only [PopulatePool, hS, ne_eq, not_false_eq_true, if_true, spawnLoop_eq]
  refine ⟨hN, hS, hM, ?_⟩
  simp only
  omega

theorem apply_withinTarget (N : Int) (s : UActorPoolSubsystem) (c : PoolCall)
    (h : WithinTarget N s) : WithinTarget N (c.apply s) := by
  cases c with
  | InitializePool World cls =>
    exact populatePool_withinTarget N World { s with ClassToSpawn := cls } h
  | PopulatePool World => exact populatePool_withinTarget N World s h
  | ReplenishPool World =>
    obtain ⟨hN, hS, hM, hT⟩ := h
    have hnil : replenishedActors World s = [] :=
      replenishedActors_of_le World s (by omega)
    simp only [PoolCall.apply, replenishPool_eq, hnil, WithinTarget, List.length_nil,
      Nat.cast_zero, add_zero]
    exact ⟨hN, hS, hM, hT⟩
  | GetActorFromPool World =>
    obtain ⟨hN, hS, hM, hT⟩ := h
    obtain ⟨f1, -, -, f4, f5, f6, -⟩ := popActor_frame s
    have hnil : replenishedActors World (popActor s).2 = [] :=
      replenishedActors_of_le World _ (by rw [f6]; omega)
    simp only [PoolCall.apply, getActorFromPool_snd, hnil, WithinTarget, List.length_nil,
      Nat.cast_zero, add_zero]
    rw [f1, f4, f5, f6]
    exact ⟨hN, hS, hM, hT⟩
  | ReturnActorToPool IsPendingKill Actor =>
    cases Actor with
    | none => exact h
    | some a =>
      cases hk : IsPendingKill a with
      | true =>
        simp only [PoolCall.apply]
        rw [returnActorToPool_pendingKill IsPendingKill a s hk]
        exact h
      | false =>
        simp only [PoolCall.apply]
        rw [returnActorToPool_valid IsPendingKill a s hk]
        exact h

theorem runCalls_withinTarget (N : Int) (cs : List PoolCall) (s : UActorPoolSubsystem)
    (h : WithinTarget N s) : WithinTarget N (runCalls s cs) :=
  runCalls_invariant (WithinTarget N) (apply_withinTarget N) cs s h

theorem freshWorld_spawnsFresh (base : Nat) (used : List Actor) (h : ∀ x ∈ used, x < base) :
    (∀ c i a, freshWorld base c i = some a → a ∉ used) ∧
    (∀ c i j a, freshWorld base c i = some a → freshWorld base c j = some a → i = j) := by
  constructor
  · intro c i a ha hmem
    simp only [freshWorld, Option.some.injEq] at ha
    subst ha
    exact Nat.not_lt.mpr (Nat.le_add_right base i) (h _ hmem)
  · intro c i j a hi hj
    simp only [freshWorld, Option.some.injEq] at hi hj
    exact Nat.add_left_cancel (hi.trans hj.symm)

/-! ## The claims on reachable states -/

/-- C1, as stated, fails: with `NumActorsToPool = 4`, `SpawnPerFrame = 2`,
`MinActorsInPool = 3`, `SpawnAdditionalPerFrame = 1` and spawns that all succeed, the pool is
populated in two ticks (4 actors), the second `GetActorFromPool` leaves 2 actors idle, which
is below `MinActorsInPool`, so it runs `ReplenishPool`, which spawns a fifth actor:
`TotalActorsSpawnedBySystem` is 5, above `NumActorsToPool`.
Two more ways past the target, without any replenishment: with `SpawnPerFrame = 0` and
`NumActorsToPool = 2`, a first tick in which one spawn fails leaves 1 actor and asks for a
second tick, which spawns 2 more (3 in all); and with a negative `NumActorsToPool` the
initial 0 is already above it. -/
theorem replenishPool_exceeds_target :
    (runCalls (initial 4 2 3 1)
      [PoolCall.InitializePool (freshWorld 10) (some 0),
       PoolCall.PopulatePool (freshWorld 20),
       PoolCall.GetActorFromPool (freshWorld 30),
       PoolCall.GetActorFromPool (freshWorld 40)]).TotalActorsSpawnedBySystem = 5 ∧
    ¬ ((runCalls (initial 4 2 3 1)
      [PoolCall.InitializePool (freshWorld 10) (some 0),
       PoolCall.PopulatePool (freshWorld 20),
       PoolCall.GetActorFromPool (freshWorld 30),
       PoolCall.GetActorFromPool (freshWorld 40)]).TotalActorsSpawnedBySystem ≤
      (runCalls (initial 4 2 3 1)
      [PoolCall.InitializePool (freshWorld 10) (some 0),
       PoolCall.PopulatePool (freshWorld 20),
       PoolCall.GetActorFromPool (freshWorld 30),
       PoolCall.GetActorFromPool (freshWorld 40)]).NumActorsToPool) ∧
    (InitializePool (firstFailsWorld 10) (some 0) (initial 2 0 0 1)).2 = true ∧
    (runCalls (initial 2 0 0 1)
      [PoolCall.InitializePool (firstFailsWorld 10) (some 0),
       PoolCall.PopulatePool (freshWorld 20)]).TotalActorsSpawnedBySystem = 3 ∧
    ¬ ((runCalls (initial (-1) 100 0 1) []).TotalActorsSpawnedBySystem ≤ -1) := by
  decide

/-- C1, as the code has it. With `NumActorsToPool >= 0`, `SpawnPerFrame != 0` and
replenishment switched off (`MinActorsInPool <= 0`), in every state reached from a freshly
constructed subsystem by `InitializePool`, `PopulatePool`, `GetActorFromPool`,
`ReturnActorToPool` and `ReplenishPool` calls, whatever the spawn primitive does,
`TotalActorsSpawnedBySystem` is at most `NumActorsToPool`. -/
theorem totalSpawnedBySystem_le_target (NumActorsToPool SpawnPerFrame MinActorsInPool
    SpawnAdditionalPerFrame : Int) (calls : List PoolCall)
    (hN : 0 ≤ NumActorsToPool) (hS : SpawnPerFrame ≠ 0) (hM : MinActorsInPool ≤ 0) :
    (runCalls (initial NumActorsToPool SpawnPerFrame MinActorsInPool SpawnAdditionalPerFrame)
        calls).TotalActorsSpawnedBySystem ≤ NumActorsToPool :=
  (runCalls_withinTarget NumActorsToPool calls
    (initial NumActorsToPool SpawnPerFrame MinActorsInPool SpawnAdditionalPerFrame)
    ⟨rfl, hS, hM, hN⟩).2.2.2

/-- The ceiling at work on `borrowAndReturn` with a target of 2 and 1 spawn per frame. -/
theorem totalSpawnedBySystem_le_target_witness :
    ((0 : Int) ≤ 2 ∧ (1 : Int) ≠ 0 ∧ (0 : Int) ≤ 0) ∧
    (runCalls (initial 2 1 0 1) borrowAndReturn).TotalActorsSpawnedBySystem ≤ 2 :=
  ⟨by decide,
    totalSpawnedBySystem_le_target 2 1 0 1 borrowAndReturn (by decide) (by decide) (by decide)⟩

/-- C4, as stated, fails: `ReturnActorToPool` of a valid handle on a freshly constructed
subsystem (default configuration) makes `CurrentActorsSpawned` equal to -1. -/
theorem currentActorsSpawned_negative :
    (runCalls (initial 2000 100 1500 1)
      [PoolCall.ReturnActorToPool nonePendingKill (some 7)]).CurrentActorsSpawned = -1 ∧
    ¬ (0 ≤ (runCalls (initial 2000 100 1500 1)
      [PoolCall.ReturnActorToPool nonePendingKill (some 7)]).CurrentActorsSpawned) := by
  decide

/-- C4, as the code has it. In every state reached from a freshly constructed subsystem by
any sequence of calls in which each `ReturnActorToPool` of a valid handle returns a handle
that is on loan at that moment (returned by an earlier `GetActorFromPool` and not returned
since), `CurrentActorsSpawned` is the number of handles on loan, and so is not negative. -/
theorem currentActorsSpawned_nonneg (NumActorsToPool SpawnPerFrame MinActorsInPool
    SpawnAdditionalPerFrame : Int) (calls : List PoolCall)
    (h : ReturnsOnlyLoaned
      (initial NumActorsToPool SpawnPerFrame MinActorsInPool SpawnAdditionalPerFrame) [] calls) :
    (runCalls (initial NumActorsToPool SpawnPerFrame MinActorsInPool SpawnAdditionalPerFrame)
        calls).CurrentActorsSpawned =
      ((onLoanAfterCalls
        (initial NumActorsToPool SpawnPerFrame MinActorsInPool SpawnAdditionalPerFrame) []
        calls).length : Int) ∧
    0 ≤ (runCalls (initial NumActorsToPool SpawnPerFrame MinActorsInPool SpawnAdditionalPerFrame)
        calls).CurrentActorsSpawned := by
  have hc := runCalls_loan_count calls
    (initial NumActorsToPool SpawnPerFrame MinActorsInPool SpawnAdditionalPerFrame) [] rfl h
  exact ⟨hc, by rw [hc]; exact Int.natCast_nonneg _⟩

/-- In `borrowAndReturn` the one handle returned, 20, is on loan when it is returned. -/
theorem borrowAndReturn_returnsOnlyLoaned :
    ReturnsOnlyLoaned (initial 2 1 0 1) [] borrowAndReturn :=
  ⟨trivial, trivial, trivial, Or.inr (by decide), trivial⟩

/-- The loan discipline holds on `borrowAndReturn`, and `CurrentActorsSpawned` is not negative there. -/
theorem currentActorsSpawned_nonneg_witness :
    ReturnsOnlyLoaned (initial 2 1 0 1) [] borrowAndReturn ∧
    0 ≤ (runCalls (initial 2 1 0 1) borrowAndReturn).CurrentActorsSpawned :=
  ⟨borrowAndReturn_returnsOnlyLoaned,
    (currentActorsSpawned_nonneg 2 1 0 1 borrowAndReturn borrowAndReturn_returnsOnlyLoaned).2⟩

/-- C5, as stated, fails: populate a pool (handles 10 and 20), take a handle (20) and call
`ReturnActorToPool` on it twice. The handle is valid both times, and it is then twice in
`PooledObjects`, so the next two `GetActorFromPool` calls both hand out handle 20. -/
theorem double_return_duplicates :
    (runCalls (initial 2 1 0 1)
      (borrowAndReturn ++
        [PoolCall.ReturnActorToPool nonePendingKill (some 20)])).PooledObjects = [10, 20, 20] ∧
    ¬ (runCalls (initial 2 1 0 1)
      (borrowAndReturn ++
        [PoolCall.ReturnActorToPool nonePendingKill (some 20)])).PooledObjects.Nodup ∧
    (GetActorFromPool (freshWorld 40) (runCalls (initial 2 1 0 1)
      (borrowAndReturn ++
        [PoolCall.ReturnActorToPool nonePendingKill (some 20)]))).1 = some 20 ∧
    (GetActorFromPool (freshWorld 50) (GetActorFromPool (freshWorld 40)
      (runCalls (initial 2 1 0 1)
        (borrowAndReturn ++
          [PoolCall.ReturnActorToPool nonePendingKill (some 20)]))).2.1).1 = some 20 := by
  decide

/-- C5, as the code has it. Assume every successful spawn returns a handle that is neither
idle nor on loan at the time and that no other spawn of the same step returns, and that each
`ReturnActorToPool` of a valid handle returns a handle that is on loan at that moment. Then
in every state reached from a freshly constructed subsystem no handle occurs twice among the
idle handles and the handles on loan taken together; in particular no handle occurs twice in
`PooledObjects`, none is idle and on loan at once, and none is on loan twice. -/
theorem pooledObjects_nodup (NumActorsToPool SpawnPerFrame MinActorsInPool
    SpawnAdditionalPerFrame : Int) (calls : List PoolCall)
    (hr : ReturnsOnlyLoaned
      (initial NumActorsToPool SpawnPerFrame MinActorsInPool SpawnAdditionalPerFrame) [] calls)
    (hf : SpawnsAlwaysFresh
      (initial NumActorsToPool SpawnPerFrame MinActorsInPool SpawnAdditionalPerFrame) [] calls) :
    ((runCalls (initial NumActorsToPool SpawnPerFrame MinActorsInPool SpawnAdditionalPerFrame)
        calls).PooledObjects ++
      onLoanAfterCalls
        (initial NumActorsToPool SpawnPerFrame MinActorsInPool SpawnAdditionalPerFrame) []
        calls).Nodup ∧
    (runCalls (initial NumActorsToPool SpawnPerFrame MinActorsInPool SpawnAdditionalPerFrame)
        calls).PooledObjects.Nodup := by
  have h := runCalls_nodup calls
    (initial NumActorsToPool SpawnPerFrame MinActorsInPool SpawnAdditionalPerFrame) []
    List.nodup_nil hr hf
  exact ⟨h, List.Nodup.of_append_left h⟩

/-- In `borrowAndReturn` every step spawns handles above all those already in use. -/
theorem borrowAndReturn_spawnsAlwaysFresh :
    SpawnsAlwaysFresh (initial 2 1 0 1) [] borrowAndReturn := by
  refine ⟨?_, ?_, ?_, trivial, trivial⟩
  · exact freshWorld_spawnsFresh 10 _ (by decide)
  · exact freshWorld_spawnsFresh 20 _ (by decide)
  · exact freshWorld_spawnsFresh 30 _ (by decide)

/-- On `borrowAndReturn` returns are of handles on loan and spawns are fresh, and the pool has no duplicate. -/
theorem pooledObjects_nodup_witness :
    ReturnsOnlyLoaned (initial 2 1 0 1) [] borrowAndReturn ∧
    SpawnsAlwaysFresh (initial 2 1 0 1) [] borrowAndReturn ∧
    (runCalls (initial 2 1 0 1) borrowAndReturn).PooledObjects.Nodup :=
  ⟨borrowAndReturn_returnsOnlyLoaned, borrowAndReturn_spawnsAlwaysFresh,
    (pooledObjects_nodup 2 1 0 1 borrowAndReturn borrowAndReturn_returnsOnlyLoaned
      borrowAndReturn_spawnsAlwaysFresh).2⟩

/-- C6, as stated, fails: on the pool `atLowWaterMark` (three handles idle, low-water mark
3) `GetActorFromPool` returns handle 20 and then replenishes, so afterwards `ActorsInPool`
is still 3, not 2, and `PooledObjects` is `[10, 11, 40]`, not `[10, 11]`. -/
theorem getActorFromPool_replenishes_in_call :
    atLowWaterMark.PooledObjects = [10, 11, 20] ∧
    atLowWaterMark.ActorsInPool = 3 ∧
    (GetActorFromPool (freshWorld 40) atLowWaterMark).1 = some 20 ∧
    (GetActorFromPool (freshWorld 40) atLowWaterMark).2.1.PooledObjects = [10, 11, 40] ∧
    ¬ ((GetActorFromPool (freshWorld 40) atLowWaterMark).2.1.ActorsInPool =
      atLowWaterMark.ActorsInPool - 1) ∧
    ¬ ((GetActorFromPool (freshWorld 40) atLowWaterMark).2.1.PooledObjects =
      atLowWaterMark.PooledObjects.dropLast) := by
  decide

/-- `GetActorFromPool` on the non-empty pool `atLowWaterMark`. -/
theorem getActorFromPool_nonempty_witness :
    atLowWaterMark.PooledObjects ≠ [] ∧
    (GetActorFromPool (freshWorld 40) atLowWaterMark).2.1.CurrentActorsSpawned =
      atLowWaterMark.CurrentActorsSpawned + 1 ∧
    (GetActorFromPool (freshWorld 40) atLowWaterMark).2.1.TotalActorsSpawned =
      atLowWaterMark.TotalActorsSpawned + 1 :=
  ⟨by decide,
    (getActorFromPool_nonempty (freshWorld 40) atLowWaterMark (by decide)).2.2.2.1,
    (getActorFromPool_nonempty (freshWorld 40) atLowWaterMark (by decide)).2.2.2.2.1⟩

/-- `GetActorFromPool` on a freshly constructed, empty pool. -/
theorem getActorFromPool_empty_witness :
    (initial 4 2 3 1).PooledObjects = [] ∧
    (GetActorFromPool (freshWorld 10) (initial 4 2 3 1)).1 = none ∧
    (GetActorFromPool (freshWorld 10) (initial 4 2 3 1)).2.1.CurrentActorsSpawned =
      (initial 4 2 3 1).CurrentActorsSpawned :=
  ⟨rfl, (getActorFromPool_empty (freshWorld 10) (initial 4 2 3 1) rfl).1,
    (getActorFromPool_empty (freshWorld 10) (initial 4 2 3 1) rfl).2.1⟩

/-- `ReturnActorToPool` of a pending-kill actor and of `nullptr` on `twoOnLoan`. -/
theorem returnActorToPool_invalid_witness :
    allPendingKill 20 = true ∧
    ReturnActorToPool allPendingKill (some 20) twoOnLoan = twoOnLoan ∧
    ReturnActorToPool nonePendingKill none twoOnLoan = twoOnLoan :=
  ⟨rfl, returnActorToPool_invalid allPendingKill (some 20) twoOnLoan (Or.inr ⟨20, rfl, rfl⟩),
    returnActorToPool_invalid nonePendingKill none twoOnLoan (Or.inl rfl)⟩

/-- `ReturnActorToPool` of the valid handle 20 on `twoOnLoan`. -/
theorem returnActorToPool_effect_witness :
    nonePendingKill 20 = false ∧
    (ReturnActorToPool nonePendingKill (some 20) twoOnLoan).PooledObjects =
      twoOnLoan.PooledObjects ++ [20] ∧
    (ReturnActorToPool nonePendingKill (some 20) twoOnLoan).ActorsInPool =
      twoOnLoan.ActorsInPool + 1 :=
  ⟨rfl, (returnActorToPool_effect nonePendingKill 20 twoOnLoan rfl).1,
    (returnActorToPool_effect nonePendingKill 20 twoOnLoan rfl).2.1⟩

/-- Handles 20 and 21 returned to `twoOnLoan` in that order come back in reverse order. -/
theorem getActorFromPool_lifo_witness :
    nonePendingKill 20 = false ∧ nonePendingKill 21 = false ∧
    (GetActorFromPool (freshWorld 50)
      (ReturnActorToPool nonePendingKill (some 21)
        (ReturnActorToPool nonePendingKill (some 20) twoOnLoan))).1 = some 21 ∧
    (GetActorFromPool (freshWorld 50)
      (ReturnActorToPool nonePendingKill (some 20) twoOnLoan)).1 = some 20 :=
  ⟨rfl, rfl,
    getActorFromPool_lifo (freshWorld 50) twoOnLoan nonePendingKill nonePendingKill 20 21 rfl rfl⟩

/-! ## Conservation of actors -/

theorem apply_conservation (s : UActorPoolSubsystem) (c : PoolCall)
    (h : s.ActorsInPool + s.CurrentActorsSpawned = s.TotalActorsSpawnedBySystem) :
    (c.apply s).ActorsInPool + (c.apply s).CurrentActorsSpawned =
      (c.apply s).TotalActorsSpawnedBySystem := by
  have hspawn : ∀ (World : SpawnOracle) (n : Nat) (t : UActorPoolSubsystem),
      t.ActorsInPool + t.CurrentActorsSpawned = t.TotalActorsSpawnedBySystem →
      (spawnLoop World n 0 t).ActorsInPool + (spawnLoop World n 0 t).CurrentActorsSpawned =
        (spawnLoop World n 0 t).TotalActorsSpawnedBySystem := by
    intro World n t ht
    rw [spawnLoop_eq]
    simp only
    omega
  have hpop : (popActor s).2.ActorsInPool + (popActor s).2.CurrentActorsSpawned =
      (popActor s).2.TotalActorsSpawnedBySystem := by
    by_cases hl : s.PooledObjects = []
    · rw [popActor_empty s hl]; exact h
    · rw [popActor_nonempty s hl]; simp only; omega
  cases c with
  | InitializePool World cls => exact hspawn World _ _ h
  | PopulatePool World => exact hspawn World _ _ h
  | ReplenishPool World => exact hspawn World _ _ h
  | GetActorFromPool World =>
    simp only [PoolCall.apply, GetActorFromPool]
    split
    · exact hspawn World _ _ hpop
    · exact hpop
  | ReturnActorToPool IsPendingKill Actor =>
    cases Actor with
    | none => exact h
    | some a =>
      simp only [PoolCall.apply]
      cases hk : IsPendingKill a with
      | true => rw [returnActorToPool_pendingKill IsPendingKill a s hk]; exact h
      | false => rw [returnActorToPool_valid IsPendingKill a s hk]; simp only; omega

/-- C19. In every state reached from a freshly constructed subsystem by any sequence of
`InitializePool`, `PopulatePool`, `ReplenishPool`, `GetActorFromPool` and `ReturnActorToPool`
calls, under every configuration and spawn behaviour,
`ActorsInPool + CurrentActorsSpawned == TotalActorsSpawnedBySystem`, and equivalently
`ActorsInPool == TotalActorsSpawnedBySystem - TotalActorsSpawned + TotalActorsDespawned`. -/
theorem actors_conserved (NumActorsToPool SpawnPerFrame MinActorsInPool
    SpawnAdditionalPerFrame : Int) (calls : List PoolCall) :
    (runCalls (initial NumActorsToPool SpawnPerFrame MinActorsInPool SpawnAdditionalPerFrame)
        calls).ActorsInPool +
      (runCalls (initial NumActorsToPool SpawnPerFrame MinActorsInPool SpawnAdditionalPerFrame)
        calls).CurrentActorsSpawned =
      (runCalls (initial NumActorsToPool SpawnPerFrame MinActorsInPool SpawnAdditionalPerFrame)
        calls).TotalActorsSpawnedBySystem ∧
    (runCalls (initial NumActorsToPool SpawnPerFrame MinActorsInPool SpawnAdditionalPerFrame)
        calls).ActorsInPool =
      (runCalls (initial NumActorsToPool SpawnPerFrame MinActorsInPool SpawnAdditionalPerFrame)
        calls).TotalActorsSpawnedBySystem -
      (runCalls (initial NumActorsToPool SpawnPerFrame MinActorsInPool SpawnAdditionalPerFrame)
        calls).TotalActorsSpawned +
      (runCalls (initial NumActorsToPool SpawnPerFrame MinActorsInPool SpawnAdditionalPerFrame)
        calls).TotalActorsDespawned := by
  have h1 := runCalls_invariant
    (fun s => s.ActorsInPool + s.CurrentActorsSpawned = s.TotalActorsSpawnedBySystem)
    apply_conservation calls
    (initial NumActorsToPool SpawnPerFrame MinActorsInPool SpawnAdditionalPerFrame) rfl
  have h2 := (runCalls_invariant StatsConsistent apply_stats calls
    (initial NumActorsToPool SpawnPerFrame MinActorsInPool SpawnAdditionalPerFrame)
    ⟨by simp [initial], by simp [initial]⟩).1
  simp only at h1
  exact ⟨h1, by omega⟩

/-! ## One spawn step -/

/-- Spawn calls that all fail produce no handle. -/
theorem spawnedActors_of_all_none (World : SpawnOracle) (cls : Option UClass) (n : Nat) :
    ∀ i : Nat, (∀ j, i ≤ j → j < i + n → World cls j = none) →
      spawnedActors World cls i n = [] := by
  induction n with
  | zero => intro i _; rfl
  | succ n ih =>
    intro i h
    rw [spawnedActors_succ_none World cls i n (h i (le_refl i) (by omega))]
    exact ih (i + 1) (fun j h1 h2 => h j (by omega) (by omega))

/-- Spawn calls that all succeed produce one handle each. -/
theorem spawnedActors_length_of_success (World : SpawnOracle) (cls : Option UClass) (n : Nat)
    (h : ∀ j, World cls j ≠ none) :
    ∀ i : Nat, (spawnedActors World cls i n).length = n := by
  induction n with
  | zero => intro i; rfl
  | succ n ih =>
    intro i
    cases hw : World cls i with
    | none => exact absurd hw (h i)
    | some a =>
      rw [spawnedActors_succ_some World cls i n a hw, List.length_cons, ih (i + 1)]

/-- The handles spawned depend only on the attempts actually made. -/
theorem spawnedActors_congr (World World2 : SpawnOracle) (cls : Option UClass) (n : Nat) :
    ∀ i : Nat, (∀ j, i ≤ j → j < i + n → World cls j = World2 cls j) →
      spawnedActors World cls i n = spawnedActors World2 cls i n := by
  induction n with
  | zero => intro i _; rfl
  | succ n ih =>
    intro i h
    have h0 := h i (le_refl i) (by omega)
    have hrest := ih (i + 1) (fun j h1 h2 => h j (by omega) (by omega))
    cases hw : World cls i with
    | none =>
      rw [spawnedActors_succ_none World cls i n hw,
        spawnedActors_succ_none World2 cls i n (h0 ▸ hw), hrest]
    | some a =>
      rw [spawnedActors_succ_some World cls i n a hw,
        spawnedActors_succ_some World2 cls i n a (h0 ▸ hw), hrest]

theorem spawnLoop_absorbed (World : SpawnOracle) (n : Nat) (s : UActorPoolSubsystem) :
    SpawnsAbsorbed World n s (spawnLoop World n 0 s) := by
  rw [spawnLoop_eq]
  refine ⟨rfl, by simp, rfl, rfl, rfl, rfl, rfl, rfl, ?_⟩
  intro h
  rw [spawnedActors_of_all_none World s.ClassToSpawn n 0 (fun j _ h2 => h j (by omega))]
  simp

theorem populatePool_loop (World : SpawnOracle) (s : UActorPoolSubsystem) :
    (PopulatePool World s).1 = spawnLoop World (populateBatch s).toNat 0 s := by
  unfold PopulatePool populateBatch
  by_cases h : s.SpawnPerFrame = 0 <;> simp [h]

theorem replenishPool_loop (World : SpawnOracle) (s : UActorPoolSubsystem) :
    (ReplenishPool World s).1 = spawnLoop World (replenishBatch s).toNat 0 s := rfl

/-- `PopulatePool` is not affected by what the world would do at call numbers it never
reaches. -/
theorem populatePool_congr (World World2 : SpawnOracle) (s : UActorPoolSubsystem)
    (h : ∀ i, i < (populateBatch s).toNat → World s.ClassToSpawn i = World2 s.ClassToSpawn i) :
    PopulatePool World2 s = PopulatePool World s := by
  have hl : (PopulatePool World2 s).1 = (PopulatePool World s).1 := by
    rw [populatePool_loop, populatePool_loop, spawnLoop_eq, spawnLoop_eq,
      spawnedActors_congr World World2 s.ClassToSpawn _ 0 (fun j _ h2 => h j (by omega))]
  have hf : (PopulatePool World2 s).2 = (PopulatePool World s).2 := by
    show decide ((PopulatePool World2 s).1.TotalActorsSpawnedBySystem <
        (PopulatePool World2 s).1.NumActorsToPool) =
      decide ((PopulatePool World s).1.TotalActorsSpawnedBySystem <
        (PopulatePool World s).1.NumActorsToPool)
    rw [hl]
  exact Prod.ext hl hf

/-- `ReplenishPool` is not affected by what the world would do at call numbers it never
reaches. -/
theorem replenishPool_congr (World World2 : SpawnOracle) (s : UActorPoolSubsystem)
    (h : ∀ i, i < (replenishBatch s).toNat → World s.ClassToSpawn i = World2 s.ClassToSpawn i) :
    ReplenishPool World2 s = ReplenishPool World s := by
  have hl : (ReplenishPool World2 s).1 = (ReplenishPool World s).1 := by
    rw [replenishPool_loop, replenishPool_loop, spawnLoop_eq, spawnLoop_eq,
      spawnedActors_congr World World2 s.ClassToSpawn _ 0 (fun j _ h2 => h j (by omega))]
  have hf : (ReplenishPool World2 s).2 = (ReplenishPool World s).2 := by
    show decide ((ReplenishPool World2 s).1.TotalActorsSpawnedBySystem <
        (ReplenishPool World2 s).1.NumActorsToPool) =
      decide ((ReplenishPool World s).1.TotalActorsSpawnedBySystem <
        (ReplenishPool World s).1.NumActorsToPool)
    rw [hl]
  exact Prod.ext hl hf

/-- C17. For every state and every outcome of the spawn calls, one `PopulatePool` step and
one `ReplenishPool` step make exactly `batch` spawn attempts (none if `batch` is not
positive; what a world does at later call numbers has no effect), add the number of
successful attempts to `TotalActorsSpawnedBySystem`, to `ActorsInPool` and to the length of
`PooledObjects`, append the new handles in spawn order, and leave `CurrentActorsSpawned`,
`MaxActorsSpawned`, `TotalActorsSpawned` and `TotalActorsDespawned` unchanged; if every
attempt fails the object is unchanged. -/
theorem spawn_failures_absorbed (World : SpawnOracle) (s : UActorPoolSubsystem) :
    SpawnsAbsorbed World (populateBatch s).toNat s (PopulatePool World s).1 ∧
    SpawnsAbsorbed World (replenishBatch s).toNat s (ReplenishPool World s).1 ∧
    (∀ World2 : SpawnOracle,
      (∀ i, i < (populateBatch s).toNat → World s.ClassToSpawn i = World2 s.ClassToSpawn i) →
      PopulatePool World2 s = PopulatePool World s) ∧
    (∀ World2 : SpawnOracle,
      (∀ i, i < (replenishBatch s).toNat → World s.ClassToSpawn i = World2 s.ClassToSpawn i) →
      ReplenishPool World2 s = ReplenishPool World s) := by
  refine ⟨?_, ?_, fun World2 h => populatePool_congr World World2 s h,
    fun World2 h => replenishPool_congr World World2 s h⟩
  · rw [populatePool_loop]; exact spawnLoop_absorbed World _ s
  · rw [replenishPool_loop]; exact spawnLoop_absorbed World _ s

/-- A failed first attempt and a successful second one on `halfPopulated` add handle 21 only;
two failed attempts leave it as it was. -/
theorem spawn_failures_absorbed_witness :
    (PopulatePool (firstFailsWorld 20) halfPopulated).1.PooledObjects =
      halfPopulated.PooledObjects ++ [21] ∧
    (∀ i, i < (populateBatch halfPopulated).toNat →
      failingWorld halfPopulated.ClassToSpawn i = none) ∧
    (PopulatePool failingWorld halfPopulated).1 = halfPopulated :=
  ⟨(spawn_failures_absorbed (firstFailsWorld 20) halfPopulated).1.1,
    fun _ _ => rfl,
    (spawn_failures_absorbed failingWorld halfPopulated).1.2.2.2.2.2.2.2.2 (fun _ _ => rfl)⟩

/-! ## Replenishment -/

theorem replenishBatch_toNat_le (s : UActorPoolSubsystem) :
    ((replenishBatch s).toNat : Int) ≤ max 0 s.SpawnAdditionalPerFrame ∧
    ((replenishBatch s).toNat : Int) ≤
      max 0 (s.MinActorsInPool - (s.PooledObjects.length : Int)) := by
  have h1 : replenishBatch s ≤ s.SpawnAdditionalPerFrame := min_le_left _ _
  have h2 : replenishBatch s ≤ s.MinActorsInPool - (s.PooledObjects.length : Int) :=
    min_le_right _ _
  have h3 := le_max_left (0 : Int) s.SpawnAdditionalPerFrame
  have h4 := le_max_right (0 : Int) s.SpawnAdditionalPerFrame
  have h5 := le_max_left (0 : Int) (s.MinActorsInPool - (s.PooledObjects.length : Int))
  have h6 := le_max_right (0 : Int) (s.MinActorsInPool - (s.PooledObjects.length : Int))
  constructor <;> omega

/-- C18, as stated, fails for a negative `SpawnAdditionalPerFrame`: with -1 a `ReplenishPool`
step makes no attempt and adds 0 actors, which is more than -1. -/
theorem replenishPool_negative_perFrame :
    (replenishBatch (initial 4 2 3 (-1))) = -1 ∧
    ((ReplenishPool (freshWorld 10) (initial 4 2 3 (-1))).1.PooledObjects.length : Int) -
      ((initial 4 2 3 (-1)).PooledObjects.length : Int) = 0 ∧
    ¬ (((ReplenishPool (freshWorld 10) (initial 4 2 3 (-1))).1.PooledObjects.length : Int) -
      ((initial 4 2 3 (-1)).PooledObjects.length : Int) ≤
        (initial 4 2 3 (-1)).SpawnAdditionalPerFrame) := by
  decide

/-- C18, as the code has it. For every state, one `ReplenishPool` step makes exactly
`max(0, min(SpawnAdditionalPerFrame, MinActorsInPool - PooledObjects.Num()))` spawn attempts
(what the world would do at later call numbers has no effect) and appends the handles of the
successful ones. Hence a step adds at most `max(0, SpawnAdditionalPerFrame)` actors, never
raises `PooledObjects.Num()` above the larger of its previous value and `MinActorsInPool`,
and changes nothing when `PooledObjects.Num() >= MinActorsInPool`. -/
theorem replenishPool_batch (World : SpawnOracle) (s : UActorPoolSubsystem) :
    (ReplenishPool World s).1.PooledObjects =
      s.PooledObjects ++ spawnedActors World s.ClassToSpawn 0
        (max 0 (min s.SpawnAdditionalPerFrame
          (s.MinActorsInPool - (s.PooledObjects.length : Int)))).toNat ∧
    (∀ World2 : SpawnOracle,
      (∀ i, i < (max 0 (min s.SpawnAdditionalPerFrame
          (s.MinActorsInPool - (s.PooledObjects.length : Int)))).toNat →
        World s.ClassToSpawn i = World2 s.ClassToSpawn i) →
      ReplenishPool World2 s = ReplenishPool World s) ∧
    ((ReplenishPool World s).1.PooledObjects.length : Int) - (s.PooledObjects.length : Int) ≤
      max 0 s.SpawnAdditionalPerFrame ∧
    ((ReplenishPool World s).1.PooledObjects.length : Int) ≤
      max (s.PooledObjects.length : Int) s.MinActorsInPool ∧
    (s.MinActorsInPool ≤ (s.PooledObjects.length : Int) → (ReplenishPool World s).1 = s) := by
  have hn : (max 0 (min s.SpawnAdditionalPerFrame
      (s.MinActorsInPool - (s.PooledObjects.length : Int)))).toNat = (replenishBatch s).toNat := by
    unfold replenishBatch
    have := le_max_left (0 : Int) (min s.SpawnAdditionalPerFrame
      (s.MinActorsInPool - (s.PooledObjects.length : Int)))
    have := le_max_right (0 : Int) (min s.SpawnAdditionalPerFrame
      (s.MinActorsInPool - (s.PooledObjects.length : Int)))
    rcases max_choice (0 : Int) (min s.SpawnAdditionalPerFrame
      (s.MinActorsInPool - (s.PooledObjects.length : Int))) with h | h
    · rw [h]; omega
    · rw [h]
  have hlen := spawnedActors_length_le World s.ClassToSpawn 0 (replenishBatch s).toNat
  obtain ⟨hb1, hb2⟩ := replenishBatch_toNat_le s
  have hmax1 := le_max_left (s.PooledObjects.length : Int) s.MinActorsInPool
  have hmax2 := le_max_right (s.PooledObjects.length : Int) s.MinActorsInPool
  have h5 := le_max_left (0 : Int) (s.MinActorsInPool - (s.PooledObjects.length : Int))
  have hcases := max_choice (0 : Int) (s.MinActorsInPool - (s.PooledObjects.length : Int))
  rw [hn, replenishPool_loop, spawnLoop_eq]
  refine ⟨rfl, fun World2 h => replenishPool_congr World World2 s h, ?_, ?_, ?_⟩
  · simp only [List.length_append, Nat.cast_add]
    omega
  · simp only [List.length_append, Nat.cast_add]
    rcases hcases with h | h <;> omega
  · intro hle
    have h0 : (replenishBatch s).toNat = 0 := by
      rcases hcases with h | h <;> omega
    rw [h0, spawnedActors_zero]
    simp

/-- On `twoOnLoan`, which holds as many idle handles as `MinActorsInPool`, a `ReplenishPool`
step changes nothing. -/
theorem replenishPool_batch_witness :
    twoOnLoan.MinActorsInPool ≤ (twoOnLoan.PooledObjects.length : Int) ∧
    (ReplenishPool (freshWorld 50) twoOnLoan).1 = twoOnLoan :=
  ⟨by decide, (replenishPool_batch (freshWorld 50) twoOnLoan).2.2.2.2 (by decide)⟩

/-! ## `GetActorFromPool` and the low-water mark -/

/-- The object after `GetActorFromPool` on a non-empty pool, in one piece. -/
theorem getActorFromPool_of_ne_nil (World : SpawnOracle) (s : UActorPoolSubsystem)
    (h : s.PooledObjects ≠ []) :
    (GetActorFromPool World s).1 = some (s.PooledObjects.getLast h) ∧
    (GetActorFromPool World s).2.1 =
      { s with
        PooledObjects := s.PooledObjects.dropLast ++
          replenishedActors World { s with PooledObjects := s.PooledObjects.dropLast }
        ActorsInPool := s.ActorsInPool - 1 +
          (replenishedActors World { s with PooledObjects := s.PooledObjects.dropLast }).length
        CurrentActorsSpawned := s.CurrentActorsSpawned + 1
        TotalActorsSpawned := s.TotalActorsSpawned + 1
        MaxActorsSpawned := max s.MaxActorsSpawned (s.CurrentActorsSpawned + 1)
        TotalActorsSpawnedBySystem := s.TotalActorsSpawnedBySystem +
          (replenishedActors World { s with PooledObjects := s.PooledObjects.dropLast }).length } := by
  rw [getActorFromPool_fst, getActorFromPool_snd, popActor_nonempty s h]
  exact ⟨rfl, rfl⟩

/-- With `MinActorsInPool` not above the number of idle handles left by the pop,
`GetActorFromPool` is the pop alone and asks for no tick. -/
theorem getActorFromPool_no_replenish (World : SpawnOracle) (s : UActorPoolSubsystem)
    (h : (popActor s).2.MinActorsInPool ≤ ((popActor s).2.PooledObjects.length : Int)) :
    GetActorFromPool World s = ((popActor s).1, (popActor s).2, false) := by
  simp only [GetActorFromPool]
  rw [if_neg (by omega)]

/-- C14. In every state in which `GetActorFromPool` pops a handle and leaves
`MinActorsInPool - 1` handles idle, with `SpawnAdditionalPerFrame >= 1` and a spawn call that
succeeds with handle `a`, the replenishment run by that call spawns exactly one actor, `a`:
the pool is the old one without its last element followed by `a`, `PooledObjects.Num()` is
back at `MinActorsInPool` (and so is `ActorsInPool`, where it mirrored the pool before), and
`TotalActorsSpawnedBySystem` has grown by 1. This holds whether or not
`TotalActorsSpawnedBySystem < NumActorsToPool`. -/
theorem getActorFromPool_replenishes_one (World : SpawnOracle) (s : UActorPoolSubsystem)
    (a : Actor) (h : s.PooledObjects ≠ [])
    (hmark : (s.PooledObjects.length : Int) - 1 = s.MinActorsInPool - 1)
    (hper : 1 ≤ s.SpawnAdditionalPerFrame) (hspawn : World s.ClassToSpawn 0 = some a) :
    (GetActorFromPool World s).1 = some (s.PooledObjects.getLast h) ∧
    (GetActorFromPool World s).2.1.PooledObjects = s.PooledObjects.dropLast ++ [a] ∧
    ((GetActorFromPool World s).2.1.PooledObjects.length : Int) = s.MinActorsInPool ∧
    (GetActorFromPool World s).2.1.ActorsInPool = s.ActorsInPool - 1 + 1 ∧
    (s.ActorsInPool = (s.PooledObjects.length : Int) →
      (GetActorFromPool World s).2.1.ActorsInPool = s.MinActorsInPool) ∧
    (GetActorFromPool World s).2.1.TotalActorsSpawnedBySystem =
      s.TotalActorsSpawnedBySystem + 1 := by
  have hl : s.PooledObjects.length > 0 := List.length_pos.mpr h
  have hn : (min s.SpawnAdditionalPerFrame
      (s.MinActorsInPool - ((s.PooledObjects.dropLast).length : Int))).toNat = 1 := by
    have hd : ((s.PooledObjects.dropLast).length : Int) = (s.PooledObjects.length : Int) - 1 := by
      rw [List.length_dropLast]; omega
    rw [hd, min_eq_right (by omega)]
    have : s.MinActorsInPool - ((s.PooledObjects.length : Int) - 1) = 1 := by omega
    rw [this]; rfl
  have hr : replenishedActors World { s with PooledObjects := s.PooledObjects.dropLast } = [a] := by
    simp only [replenishedActors, hn]
    rw [spawnedActors_succ_some World s.ClassToSpawn 0 0 a hspawn, spawnedActors_zero]
  obtain ⟨h1, h2⟩ := getActorFromPool_of_ne_nil World s h
  rw [h1, h2, hr]
  refine ⟨rfl, rfl, ?_, rfl, ?_, rfl⟩
  · simp only [List.length_append, List.length_dropLast, List.length_singleton]
    omega
  · intro hm
    simp only [List.length_singleton, Nat.cast_one]
    omega

/-- The scenario of the specification: 1500 idle, low-water mark 1500, 1 additional per
frame; `GetActorFromPool` drops the pool to 1499 and its replenishment brings it back to
1500, spawning actor number 2001. -/
theorem getActorFromPool_replenishes_one_witness :
    atDefaultMark.PooledObjects ≠ [] ∧
    ((GetActorFromPool (freshWorld 5000) atDefaultMark).2.1.PooledObjects.length : Int) = 1500 ∧
    (GetActorFromPool (freshWorld 5000) atDefaultMark).2.1.ActorsInPool = 1500 ∧
    (GetActorFromPool (freshWorld 5000) atDefaultMark).2.1.TotalActorsSpawnedBySystem =
      2000 + 1 :=
  have hne : atDefaultMark.PooledObjects ≠ [] := by
    simp [atDefaultMark]
  have hlen : (atDefaultMark.PooledObjects.length : Int) = 1500 := by
    simp [atDefaultMark]
  have hw := getActorFromPool_replenishes_one (freshWorld 5000) atDefaultMark 5000 hne
    (by rw [hlen]; rfl) (by decide) rfl
  ⟨hne, hw.2.2.1, hw.2.2.2.2.1 (by rw [hlen]; rfl), hw.2.2.2.2.2⟩

/-- C15. With `MinActorsInPool == 0`, in every state and whatever the other configuration
members are, `GetActorFromPool` does not run `ReplenishPool`: its result does not depend on
the spawn primitive, `TotalActorsSpawnedBySystem` is unchanged, the pool afterwards is the
old one without its last element (nothing is added), and no tick is asked for. -/
theorem getActorFromPool_min_zero (World : SpawnOracle) (s : UActorPoolSubsystem)
    (hmin : s.MinActorsInPool = 0) :
    (∀ World2 : SpawnOracle, GetActorFromPool World2 s = GetActorFromPool World s) ∧
    (GetActorFromPool World s).2.1.TotalActorsSpawnedBySystem = s.TotalActorsSpawnedBySystem ∧
    (GetActorFromPool World s).2.1.PooledObjects = s.PooledObjects.dropLast ∧
    (GetActorFromPool World s).2.2 = false := by
  have hm : (popActor s).2.MinActorsInPool ≤ ((popActor s).2.PooledObjects.length : Int) := by
    rw [(popActor_frame s).2.2.2.2.2.1, hmin]
    exact Int.natCast_nonneg _
  refine ⟨fun World2 => ?_, ?_, ?_, ?_⟩
  · rw [getActorFromPool_no_replenish World2 s hm, getActorFromPool_no_replenish World s hm]
  · rw [getActorFromPool_no_replenish World s hm]
    exact (popActor_frame s).1
  · rw [getActorFromPool_no_replenish World s hm]
    by_cases h : s.PooledObjects = []
    · rw [popActor_empty s h, h]; rfl
    · rw [popActor_nonempty s h]
  · rw [getActorFromPool_no_replenish World s hm]

/-- With the low-water mark at 0, `GetActorFromPool` after `borrowAndReturn` asks for no
tick and spawns nothing. -/
theorem getActorFromPool_min_zero_witness :
    (runCalls (initial 2 1 0 1) borrowAndReturn).MinActorsInPool = 0 ∧
    (GetActorFromPool (freshWorld 40) (runCalls (initial 2 1 0 1) borrowAndReturn)).2.2 = false ∧
    (GetActorFromPool (freshWorld 40)
      (runCalls (initial 2 1 0 1) borrowAndReturn)).2.1.TotalActorsSpawnedBySystem =
      (runCalls (initial 2 1 0 1) borrowAndReturn).TotalActorsSpawnedBySystem :=
  ⟨by decide,
    (getActorFromPool_min_zero (freshWorld 40) (runCalls (initial 2 1 0 1) borrowAndReturn)
      (by decide)).2.2.2,
    (getActorFromPool_min_zero (freshWorld 40) (runCalls (initial 2 1 0 1) borrowAndReturn)
      (by decide)).2.1⟩

/-! ## Round trip -/

/-- C20. In every state with a non-empty pool in which `GetActorFromPool` does not replenish
(`MinActorsInPool == 0`, or at least `MinActorsInPool` handles idle after the pop),
`GetActorFromPool` followed by `ReturnActorToPool` of the handle it returned, still valid,
restores `PooledObjects`, `ActorsInPool`, `CurrentActorsSpawned` and
`TotalActorsSpawnedBySystem`, adds 1 to `TotalActorsSpawned` and to `TotalActorsDespawned`,
and leaves `MaxActorsSpawned` at the larger of its old value and the old
`CurrentActorsSpawned` plus 1. -/
theorem acquire_release_roundtrip (World : SpawnOracle) (IsPendingKill : Actor → Bool)
    (s : UActorPoolSubsystem) (h : s.PooledObjects ≠ [])
    (hmin : s.MinActorsInPool = 0 ∨ s.MinActorsInPool ≤ (s.PooledObjects.length : Int) - 1)
    (hk : IsPendingKill (s.PooledObjects.getLast h) = false) :
    (acquireThenRelease World IsPendingKill s).PooledObjects = s.PooledObjects ∧
    (acquireThenRelease World IsPendingKill s).ActorsInPool = s.ActorsInPool ∧
    (acquireThenRelease World IsPendingKill s).CurrentActorsSpawned = s.CurrentActorsSpawned ∧
    (acquireThenRelease World IsPendingKill s).TotalActorsSpawnedBySystem =
      s.TotalActorsSpawnedBySystem ∧
    (acquireThenRelease World IsPendingKill s).TotalActorsSpawned = s.TotalActorsSpawned + 1 ∧
    (acquireThenRelease World IsPendingKill s).TotalActorsDespawned =
      s.TotalActorsDespawned + 1 ∧
    (acquireThenRelease World IsPendingKill s).MaxActorsSpawned =
      max s.MaxActorsSpawned (s.CurrentActorsSpawned + 1) := by
  have hl : s.PooledObjects.length > 0 := List.length_pos.mpr h
  have hm : (popActor s).2.MinActorsInPool ≤ ((popActor s).2.PooledObjects.length : Int) := by
    rw [popActor_nonempty s h]
    simp only [List.length_dropLast]
    rcases hmin with h0 | h1 <;> omega
  unfold acquireThenRelease
  rw [getActorFromPool_no_replenish World s hm, popActor_nonempty s h]
  simp only
  rw [returnActorToPool_valid IsPendingKill _ _ hk]
  refine ⟨List.dropLast_append_getLast h, ?_, ?_, rfl, rfl, rfl, rfl⟩
  · simp only; omega
  · simp only; omega

/-- After `borrowAndReturn` (handles 10 and 20 idle, low-water mark 0), taking handle 20 and
giving it back restores the pool. -/
theorem acquire_release_roundtrip_witness :
    (runCalls (initial 2 1 0 1) borrowAndReturn).PooledObjects ≠ [] ∧
    (acquireThenRelease (freshWorld 40) nonePendingKill
      (runCalls (initial 2 1 0 1) borrowAndReturn)).PooledObjects = [10, 20] ∧
    (acquireThenRelease (freshWorld 40) nonePendingKill
      (runCalls (initial 2 1 0 1) borrowAndReturn)).TotalActorsSpawned = 1 + 1 :=
  ⟨by decide,
    (acquire_release_roundtrip (freshWorld 40) nonePendingKill
      (runCalls (initial 2 1 0 1) borrowAndReturn) (by decide) (Or.inl (by decide)) rfl).1,
    (acquire_release_roundtrip (freshWorld 40) nonePendingKill
      (runCalls (initial 2 1 0 1) borrowAndReturn) (by decide) (Or.inl (by decide))
      rfl).2.2.2.2.1⟩

/-! ## The initial population, tick by tick -/

theorem populatePool_flag (World : SpawnOracle) (s : UActorPoolSubsystem) :
    (PopulatePool World s).2 =
      decide ((PopulatePool World s).1.TotalActorsSpawnedBySystem <
        (PopulatePool World s).1.NumActorsToPool) := rfl

/-- A `PopulatePool` step all of whose spawn calls succeed. -/
theorem populatePool_of_success (World : SpawnOracle) (s : UActorPoolSubsystem)
    (hs : ∀ i, World s.ClassToSpawn i ≠ none) :
    (PopulatePool World s).1.TotalActorsSpawnedBySystem =
      s.TotalActorsSpawnedBySystem + ((populateBatch s).toNat : Int) ∧
    (PopulatePool World s).1.ActorsInPool = s.ActorsInPool + ((populateBatch s).toNat : Int) ∧
    (PopulatePool World s).1.NumActorsToPool = s.NumActorsToPool ∧
    (PopulatePool World s).1.SpawnPerFrame = s.SpawnPerFrame := by
  rw [populatePool_loop, spawnLoop_eq,
    spawnedActors_length_of_success World s.ClassToSpawn _ hs 0]
  exact ⟨rfl, rfl, rfl, rfl⟩

/-- Any step of the initial population all of whose spawn calls succeed: the step run by
`InitializePool` differs from the later ones only in setting the class first. -/
theorem populationStep_of_success (Worlds : Nat → SpawnOracle) (cls : Option UClass) (k : Nat)
    (s : UActorPoolSubsystem) (hs : ∀ j c i, Worlds j c i ≠ none) :
    (populationStep Worlds cls k s).1.TotalActorsSpawnedBySystem =
      s.TotalActorsSpawnedBySystem + ((populateBatch s).toNat : Int) ∧
    (populationStep Worlds cls k s).1.ActorsInPool =
      s.ActorsInPool + ((populateBatch s).toNat : Int) ∧
    (populationStep Worlds cls k s).1.NumActorsToPool = s.NumActorsToPool ∧
    (populationStep Worlds cls k s).1.SpawnPerFrame = s.SpawnPerFrame ∧
    (populationStep Worlds cls k s).2 =
      decide ((populationStep Worlds cls k s).1.TotalActorsSpawnedBySystem <
        (populationStep Worlds cls k s).1.NumActorsToPool) := by
  unfold populationStep
  by_cases hk : k = 0
  · simp only [hk, if_true, InitializePool, InitializePoolInternal]
    have h := populatePool_of_success (Worlds 0) { s with ClassToSpawn := cls }
      (fun i => hs 0 _ i)
    exact ⟨h.1, h.2.1, h.2.2.1, h.2.2.2, populatePool_flag _ _⟩
  · simp only [hk, if_false]
    have h := populatePool_of_success (Worlds k) s (fun i => hs k _ i)
    exact ⟨h.1, h.2.1, h.2.2.1, h.2.2.2, populatePool_flag _ _⟩

/-- Once no step is due, the chain stays where it is. -/
theorem populationChain_stopped (Worlds : Nat → SpawnOracle) (cls : Option UClass)
    (s : UActorPoolSubsystem) (k : Nat)
    (h : (populationChain Worlds cls s k).2 = false) :
    ∀ j, populationChain Worlds cls s (k + j) = populationChain Worlds cls s k := by
  intro j
  induction j with
  | zero => rfl
  | succ j ih =>
    show populationChain Worlds cls s ((k + j) + 1) = _
    rw [populationChain, ih, h]
    simp

/-- The state of the budgeted initial population after `k` ticks, when every spawn succeeds. -/
theorem populationChain_budgeted (N SPF MIN SAPF : Int) (Worlds : Nat → SpawnOracle)
    (cls : Option UClass) (hS : 0 < SPF) (hN : 0 ≤ N) (hs : ∀ j c i, Worlds j c i ≠ none) :
    ∀ k : Nat,
      (populationChain Worlds cls (initial N SPF MIN SAPF) k).1.NumActorsToPool = N ∧
      (populationChain Worlds cls (initial N SPF MIN SAPF) k).1.SpawnPerFrame = SPF ∧
      (populationChain Worlds cls (initial N SPF MIN SAPF) k).1.TotalActorsSpawnedBySystem =
        min ((k : Int) * SPF) N ∧
      (populationChain Worlds cls (initial N SPF MIN SAPF) k).1.ActorsInPool =
        min ((k : Int) * SPF) N ∧
      ((populationChain Worlds cls (initial N SPF MIN SAPF) k).2 = true ↔
        (k = 0 ∨ (k : Int) * SPF < N)) := by
  intro k
  induction k with
  | zero =>
    refine ⟨rfl, rfl, ?_, ?_, ?_⟩
    · show (0 : Int) = min (((0 : Nat) : Int) * SPF) N
      simp [hN]
    · show (0 : Int) = min (((0 : Nat) : Int) * SPF) N
      simp [hN]
    · simp [populationChain]
  | succ k ih =>
    obtain ⟨i1, i2, i3, i4, i5⟩ := ih
    have hmul : ((k + 1 : Nat) : Int) * SPF = (k : Int) * SPF + SPF := by
      push_cast; ring
    have hk0 : (0 : Int) ≤ (k : Int) * SPF :=
      mul_nonneg (Int.natCast_nonneg k) (le_of_lt hS)
    rw [hmul]
    by_cases hflag : (populationChain Worlds cls (initial N SPF MIN SAPF) k).2 = true
    · have hstep := populationStep_of_success Worlds cls k
        (populationChain Worlds cls (initial N SPF MIN SAPF) k).1 hs
      have hbatch : populateBatch (populationChain Worlds cls (initial N SPF MIN SAPF) k).1 =
          min SPF (N - min ((k : Int) * SPF) N) := by
        unfold populateBatch
        rw [i1, i2, i3, if_neg (ne_of_gt hS)]
      rw [hbatch] at hstep
      obtain ⟨s1, s2, s3, s4, s5⟩ := hstep
      have hchain : populationChain Worlds cls (initial N SPF MIN SAPF) (k + 1) =
          populationStep Worlds cls k
            (populationChain Worlds cls (initial N SPF MIN SAPF) k).1 := by
        rw [populationChain, if_pos hflag]
      rw [hchain, s5, s1, s2, s3, s4, i1, i2, i3, i4]
      refine ⟨rfl, rfl, ?_, ?_, ?_⟩
      · omega
      · omega
      · simp only [decide_eq_true_eq]; omega
    · have hflag2 : (populationChain Worlds cls (initial N SPF MIN SAPF) k).2 = false := by
        simpa using hflag
      have hnot : ¬ (k = 0 ∨ (k : Int) * SPF < N) := fun h => hflag (i5.mpr h)
      have hchain : populationChain Worlds cls (initial N SPF MIN SAPF) (k + 1) =
          populationChain Worlds cls (initial N SPF MIN SAPF) k :=
        populationChain_stopped Worlds cls _ k hflag2 1
      rw [hchain, hflag2, i1, i2, i3, i4]
      refine ⟨rfl, rfl, ?_, ?_, ?_⟩
      · omega
      · omega
      · constructor
        · intro h; exact absurd h (by decide)
        · intro h; rcases h with h | h <;> omega

/-- C11. Budgeted spawn law. From a freshly constructed subsystem with `SpawnPerFrame > 0`
and `NumActorsToPool >= 0`, and a spawn primitive that always succeeds, after `k` ticks of
the initial population `TotalActorsSpawnedBySystem` and `ActorsInPool` both equal
`min(k * SpawnPerFrame, NumActorsToPool)`, and after the `k`-th step (`k >= 1`) a further
step is due exactly when `TotalActorsSpawnedBySystem < NumActorsToPool`. In particular with
2000 and 100 the totals after ticks 1 to 20 are 100, 200, up to 2000, a further step is due
after each of the ticks 1 to 19 and none after tick 20. -/
theorem budgeted_spawn_law (N SPF MIN SAPF : Int) (Worlds : Nat → SpawnOracle)
    (cls : Option UClass) (hS : 0 < SPF) (hN : 0 ≤ N) (hs : ∀ j c i, Worlds j c i ≠ none)
    (k : Nat) :
    (populationChain Worlds cls (initial N SPF MIN SAPF) k).1.TotalActorsSpawnedBySystem =
      min ((k : Int) * SPF) N ∧
    (populationChain Worlds cls (initial N SPF MIN SAPF) k).1.ActorsInPool =
      min ((k : Int) * SPF) N ∧
    (1 ≤ k →
      ((populationChain Worlds cls (initial N SPF MIN SAPF) k).2 = true ↔
        (populationChain Worlds cls (initial N SPF MIN SAPF) k).1.TotalActorsSpawnedBySystem
          < N)) ∧
    (N = 2000 → SPF = 100 → 1 ≤ k → k ≤ 20 →
      (populationChain Worlds cls (initial N SPF MIN SAPF) k).1.TotalActorsSpawnedBySystem =
        100 * (k : Int) ∧
      ((populationChain Worlds cls (initial N SPF MIN SAPF) k).2 = true ↔ k < 20)) := by
  obtain ⟨-, -, h3, h4, h5⟩ := populationChain_budgeted N SPF MIN SAPF Worlds cls hS hN hs k
  refine ⟨h3, h4, ?_, ?_⟩
  · intro hk
    rw [h5, h3]
    omega
  · intro hN2 hS2 hk1 hk2
    rw [h5, h3]
    subst hN2 hS2
    omega

/-- The scenario of the specification: 2000 actors, 100 per frame. After tick 19 the total
is 1900 and a step is due; after tick 20 it is 2000 and none is. -/
theorem budgeted_spawn_law_witness :
    (∀ j c i, tickWorlds j c i ≠ none) ∧
    (populationChain tickWorlds (some 0)
      (initial 2000 100 1500 1) 19).1.TotalActorsSpawnedBySystem = 1900 ∧
    (populationChain tickWorlds (some 0) (initial 2000 100 1500 1) 19).2 = true ∧
    (populationChain tickWorlds (some 0)
      (initial 2000 100 1500 1) 20).1.TotalActorsSpawnedBySystem = 2000 ∧
    (populationChain tickWorlds (some 0) (initial 2000 100 1500 1) 20).2 = false :=
  have hs : ∀ j c i, tickWorlds j c i ≠ none := fun _ _ _ => Option.some_ne_none _
  have h19 := (budgeted_spawn_law 2000 100 1500 1 tickWorlds (some 0) (by decide) (by decide)
    hs 19).2.2.2 rfl rfl (by decide) (by decide)
  have h20 := (budgeted_spawn_law 2000 100 1500 1 tickWorlds (some 0) (by decide) (by decide)
    hs 20).2.2.2 rfl rfl (by decide) (by decide)
  ⟨hs, h19.1, h19.2.mpr (by decide), h20.1, by
    cases hf : (populationChain tickWorlds (some 0) (initial 2000 100 1500 1) 20).2 with
    | false => rfl
    | true => exact absurd (h20.2.mp hf) (by decide)⟩

/-- C12. Unbounded-per-tick law. From a freshly constructed subsystem with
`SpawnPerFrame == 0` and `NumActorsToPool >= 0`, and a spawn primitive that always succeeds,
the one `PopulatePool` step run by `InitializePool` leaves `TotalActorsSpawnedBySystem`,
`ActorsInPool` and `PooledObjects.Num()` all equal to `NumActorsToPool` and does not call
`SetTimerForNextTick`: the population is complete after 1 tick. -/
theorem unbounded_per_tick_law (N MIN SAPF : Int) (World : SpawnOracle) (cls : Option UClass)
    (hN : 0 ≤ N) (hs : ∀ c i, World c i ≠ none) :
    (InitializePool World cls (initial N 0 MIN SAPF)).1.TotalActorsSpawnedBySystem = N ∧
    (InitializePool World cls (initial N 0 MIN SAPF)).1.ActorsInPool = N ∧
    ((InitializePool World cls (initial N 0 MIN SAPF)).1.PooledObjects.length : Int) = N ∧
    (InitializePool World cls (initial N 0 MIN SAPF)).2 = false ∧
    (populationChain (fun _ => World) cls (initial N 0 MIN SAPF) 1).2 = false := by
  have hflag : (InitializePool World cls (initial N 0 MIN SAPF)).2 =
      decide ((InitializePool World cls (initial N 0 MIN SAPF)).1.TotalActorsSpawnedBySystem <
        (InitializePool World cls (initial N 0 MIN SAPF)).1.NumActorsToPool) := rfl
  have hchain : populationChain (fun _ => World) cls (initial N 0 MIN SAPF) 1 =
      InitializePool World cls (initial N 0 MIN SAPF) := rfl
  have hcast : ((N.toNat : Nat) : Int) = N := Int.toNat_of_nonneg hN
  have hstate : (InitializePool World cls (initial N 0 MIN SAPF)).1 =
      spawnLoop World N.toNat 0 { initial N 0 MIN SAPF with ClassToSpawn := cls } := by
    simp only [InitializePool, InitializePoolInternal, populatePool_loop]
    rfl
  have hlen := spawnedActors_length_of_success World cls N.toNat (fun i => hs cls i) 0
  rw [hchain, hflag, hstate, spawnLoop_eq]
  simp only [hlen, hcast, List.length_append, initial, List.length_nil, zero_add,
    decide_eq_false_iff_not, lt_self_iff_false, not_false_eq_true, and_self]

/-- The scenario of the specification: 2000 actors, no limit per frame, all spawned by
`InitializePool`. -/
theorem unbounded_per_tick_law_witness :
    (∀ c i, freshWorld 10 c i ≠ none) ∧
    (InitializePool (freshWorld 10) (some 0)
      (initial 2000 0 1500 1)).1.TotalActorsSpawnedBySystem = 2000 ∧
    (InitializePool (freshWorld 10) (some 0) (initial 2000 0 1500 1)).2 = false :=
  ⟨fun _ _ => Option.some_ne_none _,
    (unbounded_per_tick_law 2000 1500 1 (freshWorld 10) (some 0) (by decide)
      (fun _ _ => Option.some_ne_none _)).1,
    (unbounded_per_tick_law 2000 1500 1 (freshWorld 10) (some 0) (by decide)
      (fun _ _ => Option.some_ne_none _)).2.2.2.1⟩

theorem ceil_bound_covers (a d k : Nat) (hd : 0 < d) (hk : (a + d - 1) / d ≤ k) :
    a ≤ k * d := by
  have h1 := Nat.div_add_mod (a + d - 1) d
  have h2 := Nat.mod_lt (a + d - 1) hd
  have h3 : (a + d - 1) / d * d ≤ k * d := Nat.mul_le_mul_right d hk
  rw [Nat.mul_comm d] at h1
  omega

/-- C16, as stated, fails: with `NumActorsToPool = 1`, `SpawnPerFrame = 1` (bound: 1 tick)
and an invalid class for which every spawn fails, a further step is still due after ticks 1,
2 and 3, with nothing spawned. -/
theorem population_unbounded_on_failure :
    populationTickBound 1 1 = 1 ∧
    (populationChain (fun _ => failingWorld) none (initial 1 1 1500 1) 1).2 = true ∧
    (populationChain (fun _ => failingWorld) none (initial 1 1 1500 1) 2).2 = true ∧
    (populationChain (fun _ => failingWorld) none (initial 1 1 1500 1) 3).2 = true ∧
    (populationChain (fun _ => failingWorld) none
      (initial 1 1 1500 1) 3).1.TotalActorsSpawnedBySystem = 0 := by
  decide

/-- C16, as the code has it. From a freshly constructed subsystem with
`NumActorsToPool >= 0` and `SpawnPerFrame >= 0`, and a spawn primitive that always succeeds,
the chain of `PopulatePool` steps started by `InitializePool` has no step due after
`ceil(NumActorsToPool / SpawnPerFrame)` ticks, or after 1 tick if `SpawnPerFrame == 0` (and
never after fewer than the one step `InitializePool` runs), nor at any later tick. -/
theorem population_tick_bound (N SPF MIN SAPF : Int) (Worlds : Nat → SpawnOracle)
    (cls : Option UClass) (hN : 0 ≤ N) (hS : 0 ≤ SPF) (hs : ∀ j c i, Worlds j c i ≠ none)
    (k : Nat) (hk : populationTickBound N SPF ≤ k) :
    (populationChain Worlds cls (initial N SPF MIN SAPF) k).2 = false := by
  by_cases h0 : SPF = 0
  · subst h0
    have hb : 1 ≤ k := by simpa [populationTickBound] using hk
    have hstep := populationStep_of_success Worlds cls 0 (initial N 0 MIN SAPF) hs
    have hbatch : populateBatch (initial N 0 MIN SAPF) = N := by
      simp [populateBatch, initial]
    have hcast : ((N.toNat : Nat) : Int) = N := Int.toNat_of_nonneg hN
    have h1 : (populationChain Worlds cls (initial N 0 MIN SAPF) 1).2 = false := by
      show (populationStep Worlds cls 0 (initial N 0 MIN SAPF)).2 = false
      rw [hstep.2.2.2.2, hstep.1, hstep.2.2.1, hbatch, hcast]
      simp [initial]
    have := populationChain_stopped Worlds cls (initial N 0 MIN SAPF) 1 h1 (k - 1)
    rw [show 1 + (k - 1) = k by omega] at this
    rw [this, h1]
  · have hpos : 0 < SPF := lt_of_le_of_ne hS (Ne.symm h0)
    have hb : max 1 ((N.toNat + SPF.toNat - 1) / SPF.toNat) ≤ k := by
      simpa [populationTickBound, h0] using hk
    have hd : ((SPF.toNat : Nat) : Int) = SPF := Int.toNat_of_nonneg hS
    have ha : ((N.toNat : Nat) : Int) = N := Int.toNat_of_nonneg hN
    have hdpos : 0 < SPF.toNat := by omega
    have hq : N.toNat ≤ k * SPF.toNat :=
      ceil_bound_covers N.toNat SPF.toNat k hdpos (le_trans (le_max_right _ _) hb)
    have hq2 : ((N.toNat : Nat) : Int) ≤ (k : Int) * ((SPF.toNat : Nat) : Int) := by
      exact_mod_cast hq
    rw [ha, hd] at hq2
    have hk1 : 1 ≤ k := le_trans (le_max_left _ _) hb
    have h5 := (populationChain_budgeted N SPF MIN SAPF Worlds cls hpos hN hs k).2.2.2.2
    cases hf : (populationChain Worlds cls (initial N SPF MIN SAPF) k).2 with
    | false => rfl
    | true =>
      rcases h5.mp hf with h | h <;> omega

/-- With 5 actors at 2 per frame the bound is `ceil(5 / 2) = 3` ticks, and no step is due
after tick 3. -/
theorem population_tick_bound_witness :
    (∀ j c i, tickWorlds j c i ≠ none) ∧ populationTickBound 5 2 = 3 ∧
    (populationChain tickWorlds (some 0) (initial 5 2 3 1) 3).2 = false :=
  ⟨fun _ _ _ => Option.some_ne_none _, by decide,
    population_tick_bound 5 2 3 1 tickWorlds (some 0) (by decide) (by decide)
      (fun _ _ _ => Option.some_ne_none _) 3 (by decide)⟩

/-! ## When replenishment reschedules itself -/

/-- `ReplenishPool` calls `SetTimerForNextTick` exactly when, after its spawns,
`TotalActorsSpawnedBySystem < NumActorsToPool`; the number of idle handles plays no part. -/
theorem replenishPool_flag (World : SpawnOracle) (s : UActorPoolSubsystem) :
    (ReplenishPool World s).2 = true ↔
      (ReplenishPool World s).1.TotalActorsSpawnedBySystem <
        (ReplenishPool World s).1.NumActorsToPool := by
  show decide _ = true ↔ _
  exact decide_eq_true_iff

/-- C13, the code at the failing input. Pool of 10, 2 per frame, low-water mark 4, 1
additional per frame; two population ticks give 4 idle handles. `GetActorFromPool` pops one
(3 idle, below the mark) and its replenishment spawns one: 4 handles are idle again, which is
the mark, yet the step asks for another tick because only 5 of 10 actors are spawned. The
`ReplenishPool` step of that next tick makes no spawn call, changes nothing, and asks for
yet another tick. -/
theorem replenishPool_reschedules_at_mark :
    (runCalls (initial 10 2 4 1)
      [PoolCall.InitializePool (freshWorld 10) (some 0),
       PoolCall.PopulatePool (freshWorld 20),
       PoolCall.GetActorFromPool (freshWorld 30)]).PooledObjects = [10, 11, 20, 30] ∧
    (runCalls (initial 10 2 4 1)
      [PoolCall.InitializePool (freshWorld 10) (some 0),
       PoolCall.PopulatePool (freshWorld 20),
       PoolCall.GetActorFromPool (freshWorld 30)]).ActorsInPool = 4 ∧
    (runCalls (initial 10 2 4 1)
      [PoolCall.InitializePool (freshWorld 10) (some 0),
       PoolCall.PopulatePool (freshWorld 20),
       PoolCall.GetActorFromPool (freshWorld 30)]).TotalActorsSpawnedBySystem = 5 ∧
    (GetActorFromPool (freshWorld 30) (runCalls (initial 10 2 4 1)
      [PoolCall.InitializePool (freshWorld 10) (some 0),
       PoolCall.PopulatePool (freshWorld 20)])).2.2 = true ∧
    replenishBatch (runCalls (initial 10 2 4 1)
      [PoolCall.InitializePool (freshWorld 10) (some 0),
       PoolCall.PopulatePool (freshWorld 20),
       PoolCall.GetActorFromPool (freshWorld 30)]) = 0 ∧
    ReplenishPool (freshWorld 40) (runCalls (initial 10 2 4 1)
      [PoolCall.InitializePool (freshWorld 10) (some 0),
       PoolCall.PopulatePool (freshWorld 20),
       PoolCall.GetActorFromPool (freshWorld 30)]) =
      (runCalls (initial 10 2 4 1)
        [PoolCall.InitializePool (freshWorld 10) (some 0),
         PoolCall.PopulatePool (freshWorld 20),
         PoolCall.GetActorFromPool (freshWorld 30)], true) := by
  decide
